import Mathlib

/-!
Shallow embedding of the karel package (files src/karel/_karel.py,
src/karel/_color.py, src/karel/_helpers.py) and proofs about it.

Modelling conventions:
* Python exceptions are modelled by the `Err` inductive; an operation that can
  raise returns `Except Err _`.  Every failing operation of the source raises
  before performing any mutation, so `.error e` faithfully models "exception
  raised, object left unchanged".
* Python `int` is `Int`; container indices that the source guards to be
  non-negative are `Nat`.
* The frozen dataclasses `AvenueAndStreet`, `Karel`, `RGB` are structures; the
  validating `__new__` constructors are the `make` functions.  Since
  `AvenueAndStreet.__new__` rejects negative coordinates, every constructed
  value has non-negative fields, which we encode by giving the structures `Nat`
  fields; `make` takes the raw `Int` inputs and performs the source's check.
* Mutating `World` methods take the world and return `Except Err World`.
-/

set_option linter.unusedVariables false

/-- Kinds of exception raised by the source: Python `ValueError`,
`IndexError` and `TypeError`. -/
inductive Err where
  | valueError
  | indexError
  | typeError
deriving DecidableEq, Repr

/-- The four-valued `Direction` enum of `_karel.py`. -/
inductive Direction where
  | north
  | south
  | east
  | west
deriving DecidableEq, Repr

/-- Python `Direction.turned_left` property. -/
def Direction.turned_left : Direction → Direction
  | .north => .west
  | .south => .east
  | .east => .north
  | .west => .south

/-- Python `Direction.turned_right` property. -/
def Direction.turned_right : Direction → Direction
  | .north => .east
  | .south => .west
  | .east => .south
  | .west => .north

/-- Python `Direction.turned_around` property. -/
def Direction.turned_around : Direction → Direction
  | .north => .south
  | .south => .north
  | .east => .west
  | .west => .east

/-- The frozen dataclass `AvenueAndStreet`: an already-validated position.
`__new__` only ever stores non-negative integers, hence `Nat` fields. -/
structure AvenueAndStreet where
  avenue : Nat
  street : Nat
deriving DecidableEq, Repr

/-- Python `AvenueAndStreet.__new__`: coerces both arguments to `int` (the `TypeError`
path of `_helpers.index` is unreachable for `Int` inputs) and raises
`ValueError` when either is negative. -/
def AvenueAndStreet.make (avenue street : Int) : Except Err AvenueAndStreet :=
  if avenue < 0 ∨ street < 0 then .error .valueError
  else .ok ⟨avenue.toNat, street.toNat⟩

/-- Python `AvenueAndStreet.with_avenue`: calls the validating constructor. -/
def AvenueAndStreet.with_avenue (self : AvenueAndStreet) (avenue : Int) :
    Except Err AvenueAndStreet :=
  AvenueAndStreet.make avenue self.street

/-- Python `AvenueAndStreet.with_street`: calls the validating constructor. -/
def AvenueAndStreet.with_street (self : AvenueAndStreet) (street : Int) :
    Except Err AvenueAndStreet :=
  AvenueAndStreet.make self.avenue street

/-- Python `AvenueAndStreet.moved`: steps by one in the given direction by calling
`with_street` / `with_avenue`, hence through the validating constructor. -/
def AvenueAndStreet.moved (self : AvenueAndStreet) :
    Direction → Except Err AvenueAndStreet
  | .north => self.with_street ((self.street : Int) + 1)
  | .south => self.with_street ((self.street : Int) - 1)
  | .east => self.with_avenue ((self.avenue : Int) + 1)
  | .west => self.with_avenue ((self.avenue : Int) - 1)

/-- Python `AvenueAndStreet._in_bounds`: the source only checks the upper bounds
(`position.avenue < self.avenue and position.street < self.street`); the lower
bounds hold because constructed positions are non-negative. -/
def AvenueAndStreet.in_bounds (self position : AvenueAndStreet) : Bool :=
  position.avenue < self.avenue && position.street < self.street

/-- The frozen dataclass `Karel` (robot state); `direction` defaults to east at
the call sites that use the default. -/
structure Karel where
  position : AvenueAndStreet
  direction : Direction
deriving DecidableEq, Repr

/-- Python `Karel.facing_north` property. -/
def Karel.facing_north (self : Karel) : Bool := self.direction = Direction.north

/-- Python `Karel.facing_south` property. -/
def Karel.facing_south (self : Karel) : Bool := self.direction = Direction.south

/-- Python `Karel.facing_east` property. -/
def Karel.facing_east (self : Karel) : Bool := self.direction = Direction.east

/-- Python `Karel.facing_west` property. -/
def Karel.facing_west (self : Karel) : Bool := self.direction = Direction.west

/-- Python `Karel.moved_to`: same direction, new position. -/
def Karel.moved_to (self : Karel) (position : AvenueAndStreet) : Karel :=
  ⟨position, self.direction⟩

/-- Python `Karel.moved` property: `moved_to(position.moved(direction))`; the inner
`moved` can raise (negative coordinate), which propagates. -/
def Karel.moved (self : Karel) : Except Err Karel :=
  (self.position.moved self.direction).map self.moved_to

/-- Python `Karel.turned`: same position, new direction. -/
def Karel.turned (self : Karel) (direction : Direction) : Karel :=
  ⟨self.position, direction⟩

/-- Python `Karel.turned_left` property. -/
def Karel.turned_left (self : Karel) : Karel :=
  self.turned self.direction.turned_left

/-- Python `Karel.turned_right` property. -/
def Karel.turned_right (self : Karel) : Karel :=
  self.turned self.direction.turned_right

/-- Python `Karel.turned_around` property. -/
def Karel.turned_around (self : Karel) : Karel :=
  self.turned self.direction.turned_around

/-- The frozen dataclass `RGB` of `_color.py`; `__new__` only stores channel
values in `0..255`, so the fields are `Nat` (the range invariant itself is
enforced by `make` below, as in the source). -/
structure RGB where
  r : Nat
  g : Nat
  b : Nat
deriving DecidableEq, Repr

/-- Python `RGB.__new__`: raises `ValueError` unless every channel is in `0..255`
(`TypeError` path of `_helpers.index` unreachable for `Int` inputs). -/
def RGB.make (r g b : Int) : Except Err RGB :=
  if 0 ≤ r ∧ r ≤ 255 ∧ 0 ≤ g ∧ g ≤ 255 ∧ 0 ≤ b ∧ b ≤ 255 then
    .ok ⟨r.toNat, g.toNat, b.toNat⟩
  else .error .valueError

/-- The module-level `color` dictionary of `_color.py` (its default ten
entries, in insertion order), modelled as an association list. -/
def color : List (String × RGB) :=
  [("red", ⟨255, 0, 0⟩),
   ("green", ⟨0, 255, 0⟩),
   ("blue", ⟨0, 0, 255⟩),
   ("yellow", ⟨255, 255, 0⟩),
   ("cyan", ⟨0, 255, 255⟩),
   ("orange", ⟨255, 165, 0⟩),
   ("white", ⟨255, 255, 255⟩),
   ("black", ⟨0, 0, 0⟩),
   ("gray", ⟨204, 204, 204⟩),
   ("purple", ⟨155, 48, 255⟩)]

/-- Argument type of `RGB.from_str` and of the color-taking `World`
operations: Python `str | RGB`. -/
inductive ColorInput where
  | str (s : String)
  | rgb (c : RGB)
deriving DecidableEq, Repr

/-- Python `str.lower`, applied characterwise (the inputs appearing in this
development are ASCII, where `Char.toLower` agrees with Python). -/
def py_lower (s : String) : String := ⟨s.data.map Char.toLower⟩

/-- Python `all_hex_digits` of `_color.py`. -/
def all_hex_digits (l : List Char) : Bool :=
  l.all (fun c => "0123456789abcdefABCDEF".toList.contains c)

/-- Value of one hexadecimal digit (used to model Python `int(s, 16)` on the
one- and two-digit strings built by `RGB.from_str`). -/
def hex_val (c : Char) : Nat :=
  if c.isDigit then c.toNat - 48
  else if 'a' ≤ c ∧ c ≤ 'f' then c.toNat - 87
  else if 'A' ≤ c ∧ c ≤ 'F' then c.toNat - 55
  else 0

/-- Helper for the call-notation recogniser: drop leading spaces. -/
def skip_spaces : List Char → List Char
  | ' ' :: rest => skip_spaces rest
  | l => l

/-- Helper for the call-notation recogniser: consume one expected character. -/
def expect (c : Char) : List Char → Option (List Char)
  | x :: rest => if x = c then some rest else none
  | [] => none

/-- Helper for the call-notation recogniser: consume an expected prefix. -/
def expect_all (p l : List Char) : Option (List Char) :=
  if l.take p.length = p then some (l.drop p.length) else none

/-- Helper for the call-notation recogniser: a decimal integer literal with
surrounding spaces. -/
def parse_nat_arg (l : List Char) : Option (Nat × List Char) :=
  let l := skip_spaces l
  let ds := l.takeWhile Char.isDigit
  if ds.length = 0 then none
  else some (ds.foldl (fun n c => 10 * n + (c.toNat - 48)) 0,
    skip_spaces (l.drop ds.length))

/-- Helper for the call-notation recogniser: a `name=value` keyword argument. -/
def parse_kw_arg (name : Char) (l : List Char) : Option (Nat × List Char) := do
  let l := skip_spaces l
  let l ← expect name l
  let l := skip_spaces l
  let l ← expect '=' l
  parse_nat_arg l

/-- Models the last branch of `RGB.from_str`: the source feeds the lowercased
string to Python's expression parser and accepts exactly a call
`rgb(r, g, b)` with three positional constants or the three keyword constants
`r=`, `g=`, `b=` in that order.  This recogniser restricts the constants to
decimal integer literals (the source would also accept other literal
notations); no theorem below relies on an input where the two differ. -/
def parse_rgb_call (s : String) : Option (Nat × Nat × Nat) :=
  (do
    let l ← expect_all "rgb(".toList s.toList
    let (r, l) ← parse_nat_arg l
    let l ← expect ',' l
    let (g, l) ← parse_nat_arg l
    let l ← expect ',' l
    let (b, l) ← parse_nat_arg l
    let l ← expect ')' l
    if skip_spaces l = [] then some (r, g, b) else none) <|>
  (do
    let l ← expect_all "rgb(".toList s.toList
    let (r, l) ← parse_kw_arg 'r' l
    let l ← expect ',' l
    let (g, l) ← parse_kw_arg 'g' l
    let l ← expect ',' l
    let (b, l) ← parse_kw_arg 'b' l
    let l ← expect ')' l
    if skip_spaces l = [] then some (r, g, b) else none)

/-- The two hash-notation branches of `RGB.from_str`: `#abc` doubles each
digit (`int(r * 2, 16) = 17 * hex_val r`), `#aabbcc` reads two digits per
channel; a hash string whose digits are not all hexadecimal falls through
(`none`), as does any other shape. -/
def hex_parse (s : String) : Option (Except Err RGB) :=
  match s.toList with
  | ['#', r, g, b] =>
    if all_hex_digits [r, g, b] then
      some (RGB.make (17 * hex_val r) (17 * hex_val g) (17 * hex_val b))
    else none
  | ['#', r1, r2, g1, g2, b1, b2] =>
    if all_hex_digits [r1, r2, g1, g2, b1, b2] then
      some (RGB.make (16 * hex_val r1 + hex_val r2)
        (16 * hex_val g1 + hex_val g2) (16 * hex_val b1 + hex_val b2))
    else none
  | _ => none

/-- Python `RGB.from_str`: an `RGB` passes through; a string is lowercased, then tried
against the `color` table, the `#abc` and `#aabbcc` hex notations, and finally
the `rgb(...)` call notation; anything else raises `ValueError`. -/
def RGB.from_str (c : ColorInput) : Except Err RGB :=
  match c with
  | .rgb v => .ok v
  | .str s0 =>
    match color.lookup (py_lower s0) with
    | some v => .ok v
    | none =>
      match hex_parse (py_lower s0) with
      | some e => e
      | none =>
        match parse_rgb_call (py_lower s0) with
        | some (r, g, b) => RGB.make r g b
        | none => .error .valueError

/-- The `RGB(255, 255, 255)` literal used as the default cell color. -/
def white : RGB := ⟨255, 255, 255⟩

/-- View of `Except` as a sum, used to derive decidable equality. -/
def Except.toSum : Except ε α → ε ⊕ α
  | .error e => .inl e
  | .ok a => .inr a

instance {ε α : Type} [DecidableEq ε] [DecidableEq α] :
    DecidableEq (Except ε α) := fun a b =>
  decidable_of_iff (a.toSum = b.toSum)
    (by cases a <;> cases b <;> simp [Except.toSum])


/-- The mutable `World` aggregate of `_karel.py`: robot state plus the four
storage grids (`_karel`, `_ball_counts`, `_horizontal_walls`,
`_vertical_walls`, `_colors`).  Grids are stored north-to-south: storage row 0
is the northmost street; columns are avenues west-to-east.  Ball counts are
`Int` because the `ball_counts` setter performs no sign check. -/
structure World where
  karel : Karel
  ball_counts : List (List Int)
  horizontal_walls : List (List Bool)
  vertical_walls : List (List Bool)
  colors : List (List RGB)
deriving DecidableEq, Repr

/-- Read a grid entry, with a default used only out of range.  Every use below
is guarded by the same bounds check the source performs before indexing, so
the default is never the returned value in guarded positions. -/
def cell (g : List (List α)) (d : α) (i j : Nat) : α := (g.getD i []).getD j d

/-- Read a grid entry at `Int` indices (the source computes indices with
Python int arithmetic); only used under guards implying both are ≥ 0. -/
def cellI (g : List (List α)) (d : α) (i j : Int) : α := cell g d i.toNat j.toNat

/-- Write a grid entry (`g[i][j] = x`). -/
def update2 (g : List (List α)) (i j : Nat) (x : α) : List (List α) :=
  g.set i ((g.getD i []).set j x)

/-- The `World.size` property: `AvenueAndStreet(len(bc[0]), len(bc))`.  The
source would raise on an empty grid; the invariants keep the grid non-empty,
and `headD` makes the function total. -/
def World.size (w : World) : AvenueAndStreet :=
  ⟨(w.ball_counts.headD []).length, w.ball_counts.length⟩

/-- Python `World._list_index`: position → (storage row, storage column), computed
with Python int arithmetic (the row can be negative for an out-of-bounds
street, which the callers guard against). -/
def World.list_index (w : World) (p : AvenueAndStreet) : Int × Int :=
  ((w.size.street : Int) - (p.street : Int) - 1, (p.avenue : Int))

/-- The `karel` property setter: rejects a robot position out of bounds. -/
def World.set_karel (w : World) (new : Karel) : Except Err World :=
  if ¬ w.size.in_bounds new.position then .error .valueError
  else .ok { w with karel := new }

/-- Python `World.move_karel`. -/
def World.move_karel (w : World) (position : AvenueAndStreet) :
    Except Err World :=
  w.set_karel ⟨position, w.karel.direction⟩

/-- Python `World.rotate_karel`. -/
def World.rotate_karel (w : World) (direction : Direction) :
    Except Err World :=
  w.set_karel ⟨w.karel.position, direction⟩

/-- Python `World.ball_count`: the position argument defaults to the robot position;
out-of-bounds queries raise `IndexError`. -/
def World.ball_count (w : World) (position : Option AvenueAndStreet) :
    Except Err Int :=
  let p := position.getD w.karel.position
  if ¬ w.size.in_bounds p then .error .indexError
  else
    let ij := w.list_index p
    .ok (cellI w.ball_counts 0 ij.1 ij.2)

/-- Python `World.set_ball_count`: bounds check (`IndexError`), then sign check
(`ValueError`), then the write. -/
def World.set_ball_count (w : World) (new : Int)
    (position : Option AvenueAndStreet) : Except Err World :=
  let p := position.getD w.karel.position
  if ¬ w.size.in_bounds p then .error .indexError
  else if new < 0 then .error .valueError
  else
    let ij := w.list_index p
    .ok { w with
      ball_counts := update2 w.ball_counts ij.1.toNat ij.2.toNat new }

/-- Python `World.color_at`. -/
def World.color_at (w : World) (position : Option AvenueAndStreet) :
    Except Err RGB :=
  let p := position.getD w.karel.position
  if ¬ w.size.in_bounds p then .error .indexError
  else
    let ij := w.list_index p
    .ok (cellI w.colors white ij.1 ij.2)

/-- Python `World.paint`: the `new` argument is type-filtered to `RGB` (a plain `RGB`
in the model); bounds check raises `IndexError`. -/
def World.paint (w : World) (new : RGB) (position : Option AvenueAndStreet) :
    Except Err World :=
  let p := position.getD w.karel.position
  if ¬ w.size.in_bounds p then .error .indexError
  else
    let ij := w.list_index p
    .ok { w with colors := update2 w.colors ij.1.toNat ij.2.toNat new }

/-- Core of `World.is_blocked` after the bounds check, for an in-bounds
position: the source first normalizes north to south (decrementing the storage
row) and west to east (decrementing the storage column), then reads the wall
grid if the edge is internal and reports blocked otherwise. -/
def World.is_blocked_at (w : World) (p : AvenueAndStreet) (d : Direction) :
    Bool :=
  let S : Int := w.size.street
  let A : Int := w.size.avenue
  let i : Int := S - (p.street : Int) - 1
  let j : Int := (p.avenue : Int)
  match d with
  | .north =>
    if 0 ≤ i - 1 ∧ i - 1 < S - 1 then cellI w.horizontal_walls false (i - 1) j
    else true
  | .south =>
    if 0 ≤ i ∧ i < S - 1 then cellI w.horizontal_walls false i j
    else true
  | .west =>
    if 0 ≤ j - 1 ∧ j - 1 < A - 1 then cellI w.vertical_walls false i (j - 1)
    else true
  | .east =>
    if 0 ≤ j ∧ j < A - 1 then cellI w.vertical_walls false i j
    else true

/-- Python `World.is_blocked`: position and direction default from the robot state;
an out-of-bounds position raises `IndexError`. -/
def World.is_blocked (w : World) (position : Option AvenueAndStreet)
    (direction : Option Direction) : Except Err Bool :=
  let p := position.getD w.karel.position
  let d := direction.getD w.karel.direction
  if ¬ w.size.in_bounds p then .error .indexError
  else .ok (w.is_blocked_at p d)

/-- Python `World.is_clear`. -/
def World.is_clear (w : World) (position : Option AvenueAndStreet)
    (direction : Option Direction) : Except Err Bool :=
  (w.is_blocked position direction).map (fun b => !b)

/-- Python `World.set_is_blocked`: same normalization as `is_blocked`, but an edge on
the outward boundary raises `IndexError` instead of reading as blocked. -/
def World.set_is_blocked (w : World) (wall : Bool)
    (position : Option AvenueAndStreet) (direction : Option Direction) :
    Except Err World :=
  let p := position.getD w.karel.position
  let d := direction.getD w.karel.direction
  if ¬ w.size.in_bounds p then .error .indexError
  else
    let S : Int := w.size.street
    let A : Int := w.size.avenue
    let i : Int := S - (p.street : Int) - 1
    let j : Int := (p.avenue : Int)
    match d with
    | .north =>
      if 0 ≤ i - 1 ∧ i - 1 < S - 1 then
        let hw := update2 w.horizontal_walls (i - 1).toNat j.toNat wall
        .ok { w with horizontal_walls := hw }
      else .error .indexError
    | .south =>
      if 0 ≤ i ∧ i < S - 1 then
        let hw := update2 w.horizontal_walls i.toNat j.toNat wall
        .ok { w with horizontal_walls := hw }
      else .error .indexError
    | .west =>
      if 0 ≤ j - 1 ∧ j - 1 < A - 1 then
        let vw := update2 w.vertical_walls i.toNat (j - 1).toNat wall
        .ok { w with vertical_walls := vw }
      else .error .indexError
    | .east =>
      if 0 ≤ j ∧ j < A - 1 then
        let vw := update2 w.vertical_walls i.toNat j.toNat wall
        .ok { w with vertical_walls := vw }
      else .error .indexError

/-- Python `World.set_is_clear`. -/
def World.set_is_clear (w : World) (wall : Bool)
    (position : Option AvenueAndStreet) (direction : Option Direction) :
    Except Err World :=
  w.set_is_blocked (!wall) position direction

/-- Python `World.turn_left` (goes through the validating `karel` setter). -/
def World.turn_left (w : World) : Except Err World :=
  w.set_karel w.karel.turned_left

/-- Python `World.turn_right`. -/
def World.turn_right (w : World) : Except Err World :=
  w.set_karel w.karel.turned_right

/-- Python `World.turn_around`. -/
def World.turn_around (w : World) : Except Err World :=
  w.set_karel w.karel.turned_around

/-- Python `World.put_ball`: `set_ball_count(ball_count(position) + 1, position)`. -/
def World.put_ball (w : World) (position : Option AvenueAndStreet) :
    Except Err World := do
  let p := position.getD w.karel.position
  let c ← w.ball_count (some p)
  w.set_ball_count (c + 1) (some p)

/-- Python `World.take_ball`: `set_ball_count(ball_count(position) - 1, position)`;
at a zero count the inner sign check raises `ValueError`. -/
def World.take_ball (w : World) (position : Option AvenueAndStreet) :
    Except Err World := do
  let p := position.getD w.karel.position
  let c ← w.ball_count (some p)
  w.set_ball_count (c - 1) (some p)

/-- Python `World.balls_present`. -/
def World.balls_present (w : World) (position : Option AvenueAndStreet) :
    Except Err Bool := do
  let p := position.getD w.karel.position
  let c ← w.ball_count (some p)
  pure (c != 0)

/-- Python `World.no_balls_present`. -/
def World.no_balls_present (w : World) (position : Option AvenueAndStreet) :
    Except Err Bool :=
  (w.balls_present position).map (fun b => !b)

/-- Python `World.front_is_clear`. -/
def World.front_is_clear (w : World) : Except Err Bool := w.is_clear none none

/-- Python `World.left_is_clear`. -/
def World.left_is_clear (w : World) : Except Err Bool :=
  w.is_clear none (some w.karel.direction.turned_left)

/-- Python `World.right_is_clear`. -/
def World.right_is_clear (w : World) : Except Err Bool :=
  w.is_clear none (some w.karel.direction.turned_right)

/-- Python `World.front_is_blocked`. -/
def World.front_is_blocked (w : World) : Except Err Bool :=
  w.is_blocked none none

/-- Python `World.left_is_blocked`. -/
def World.left_is_blocked (w : World) : Except Err Bool :=
  w.is_blocked none (some w.karel.direction.turned_left)

/-- Python `World.right_is_blocked`. -/
def World.right_is_blocked (w : World) : Except Err Bool :=
  w.is_blocked none (some w.karel.direction.turned_right)

/-- Python `World.move`: raises `ValueError` when the front is blocked, otherwise
assigns `karel.moved` through the validating `karel` setter. -/
def World.move (w : World) : Except Err World := do
  let b ← w.front_is_blocked
  if b then .error .valueError
  else do
    let k ← w.karel.moved
    w.set_karel k

/-- Python `World.facing_north`. -/
def World.facing_north (w : World) : Bool := w.karel.facing_north

/-- Python `World.facing_south`. -/
def World.facing_south (w : World) : Bool := w.karel.facing_south

/-- Python `World.facing_east`. -/
def World.facing_east (w : World) : Bool := w.karel.facing_east

/-- Python `World.facing_west`. -/
def World.facing_west (w : World) : Bool := w.karel.facing_west

/-- Python `World.not_facing_north`. -/
def World.not_facing_north (w : World) : Bool := !w.facing_north

/-- Python `World.not_facing_south`. -/
def World.not_facing_south (w : World) : Bool := !w.facing_south

/-- Python `World.not_facing_east`. -/
def World.not_facing_east (w : World) : Bool := !w.facing_east

/-- Python `World.not_facing_west`. -/
def World.not_facing_west (w : World) : Bool := !w.facing_west

/-- Python `World.color_is`: compares `color_at()` with `RGB.from_str(color)`; either
side can raise. -/
def World.color_is (w : World) (c : ColorInput) : Except Err Bool := do
  let cur ← w.color_at none
  let target ← RGB.from_str c
  pure (cur == target)

/-- Name set of the table built by `World.globals`: the 20 base entries in the
source's insertion order, plus the super-tier and ultra-tier additions; any
other mode string raises `ValueError`.  (The dict values are the operations
bound to `w`; only the exposed names are modelled.) -/
def World.globals_names (w : World) (mode : String) : Except Err (List String) :=
  if mode ≠ "normal" ∧ mode ≠ "super" ∧ mode ≠ "ultra" then .error .valueError
  else
    .ok (["move", "turn_left", "put_ball", "take_ball", "balls_present",
      "no_balls_present", "front_is_clear", "left_is_clear", "right_is_clear",
      "front_is_blocked", "left_is_blocked", "right_is_blocked",
      "facing_north", "facing_south", "facing_east", "facing_west",
      "not_facing_north", "not_facing_south", "not_facing_east",
      "not_facing_west"] ++
      (if mode = "super" ∨ mode = "ultra" then ["turn_right", "turn_around"]
        else []) ++
      (if mode = "ultra" then ["color", "paint", "color_is"] else []))

/-- North shrink of the `size` setter: `del grid[:to_delete]` on all four
grids deletes rows at the north (storage-front) side. -/
def World.street_shrink (w : World) (t : Nat) : World :=
  { w with
    ball_counts := w.ball_counts.drop t,
    horizontal_walls := w.horizontal_walls.drop t,
    vertical_walls := w.vertical_walls.drop t,
    colors := w.colors.drop t }

/-- North grow of the `size` setter: `grid[:0] = rows` inserts fresh north
rows (`[0]*avenue` for balls, `[False]*avenue` / `[False]*(avenue-1)` for the
walls, white for colors); the avenue is re-read from the world exactly as the
source re-reads `self.size`. -/
def World.street_grow (w : World) (t : Nat) : World :=
  { w with
    ball_counts :=
      List.replicate t (List.replicate w.size.avenue 0) ++ w.ball_counts,
    horizontal_walls :=
      List.replicate t (List.replicate w.size.avenue false)
        ++ w.horizontal_walls,
    vertical_walls :=
      List.replicate t (List.replicate (w.size.avenue - 1) false)
        ++ w.vertical_walls,
    colors :=
      List.replicate t (List.replicate w.size.avenue white) ++ w.colors }

/-- The grow half of the street resize, applied to the state left by the
shrink half (mirroring the source's sequential `if` blocks, which re-read
`self.size` after the first block may have mutated the grids). -/
def World.street_resize_aux (w1 : World) (newS : Nat) : World :=
  if newS > w1.size.street then w1.street_grow (newS - w1.size.street) else w1

/-- The street-direction half of the `size` setter (the source's first two
`if` blocks). -/
def World.street_resize (w : World) (newS : Nat) : World :=
  World.street_resize_aux
    (if newS < w.size.street then w.street_shrink (w.size.street - newS)
      else w) newS

/-- East shrink of the `size` setter: `del row[-to_delete:]` drops trailing
(east) entries of every row of every grid; `to_delete ≥ 1` where this is
invoked, so it equals `take (length - to_delete)`. -/
def World.avenue_shrink (w : World) (t : Nat) : World :=
  { w with
    ball_counts := w.ball_counts.map (fun r => r.take (r.length - t)),
    horizontal_walls :=
      w.horizontal_walls.map (fun r => r.take (r.length - t)),
    vertical_walls := w.vertical_walls.map (fun r => r.take (r.length - t)),
    colors := w.colors.map (fun r => r.take (r.length - t)) }

/-- East grow of the `size` setter: `row.extend(...)` appends fresh east
entries to every row. -/
def World.avenue_grow (w : World) (t : Nat) : World :=
  { w with
    ball_counts := w.ball_counts.map (fun r => r ++ List.replicate t 0),
    horizontal_walls :=
      w.horizontal_walls.map (fun r => r ++ List.replicate t false),
    vertical_walls :=
      w.vertical_walls.map (fun r => r ++ List.replicate t false),
    colors := w.colors.map (fun r => r ++ List.replicate t white) }

/-- The grow half of the avenue resize, applied to the state left by the
shrink half. -/
def World.avenue_resize_aux (w3 : World) (newA : Nat) : World :=
  if newA > w3.size.avenue then w3.avenue_grow (newA - w3.size.avenue) else w3

/-- The avenue-direction half of the `size` setter (the source's last two
`if` blocks). -/
def World.avenue_resize (w : World) (newA : Nat) : World :=
  World.avenue_resize_aux
    (if newA < w.size.avenue then w.avenue_shrink (w.size.avenue - newA)
      else w) newA

/-- The `size` property setter: rejects a zero dimension or a new size that
would strand the robot, then performs the street phase followed by the avenue
phase (the source's four sequential `if` blocks). -/
def World.set_size (w : World) (new : AvenueAndStreet) : Except Err World :=
  if new.street = 0 ∨ new.avenue = 0 then .error .valueError
  else if ¬ new.in_bounds w.karel.position then .error .valueError
  else .ok ((w.street_resize new.street).avenue_resize new.avenue)

/-- Python `_2d_arr_size`: row count plus the first row's length, raising
`ValueError` when some row's length differs from the first's. -/
def arr_2d_size (g : List (List α)) : Except Err (Nat × Option Nat) :=
  match g with
  | [] => .ok (0, none)
  | r :: rs =>
    if rs.all (fun x => x.length == r.length) then
      .ok (rs.length + 1, some r.length)
    else .error .valueError

/-- Python `_ensure_size`: checks the row count, then every row's length. -/
def ensure_size (g : List (List α)) (isize jsize : Nat) : Except Err Unit :=
  if g.length ≠ isize then .error .valueError
  else if g.all (fun r => r.length == jsize) then .ok ()
  else .error .valueError

/-- The `ball_counts` property setter: `None` rebuilds the grid as
`[[0]*street]*avenue` — note the source iterates `range(self.size.street)`
inside and `range(self.size.avenue)` outside, producing an avenue×street grid
against the street×avenue storage layout, with no further checks; a real grid
is shape-checked, the size is re-derived and applied via the `size` setter,
and the grid is stored with no sign check on the counts. -/
def World.ball_counts_set (w : World) (new : Option (List (List Int))) :
    Except Err World :=
  match new with
  | none =>
    let g := List.replicate w.size.avenue (List.replicate w.size.street 0)
    .ok { w with ball_counts := g }
  | some g => do
    let is ← arr_2d_size g
    match is with
    | (_, none) => .error .valueError
    | (isize, some jsize) =>
      if isize = 0 ∨ jsize = 0 then .error .valueError
      else do
        let w1 ← w.set_size ⟨jsize, isize⟩
        .ok { w1 with ball_counts := g }

/-- Python `World.__init__`: validates the ball-count grid, then builds the wall and
color grids from the given values or the documented defaults.  The source
passes `self._horizontal_walls` — not `self._vertical_walls` / `self._colors`
— to the second and third `_ensure_size` calls (lines 289 and 301 of
`_karel.py`), which the embedding reproduces; since the horizontal-wall grid
has `isize - 1` rows, the `isize`-row check of the `vertical_walls` call can
never pass.  No sign check is performed on the ball counts. -/
def World.init (karel : Karel) (ball_counts : List (List Int))
    (horizontal_walls : Option (List (List Bool)))
    (vertical_walls : Option (List (List Bool)))
    (colors : Option (List (List ColorInput))) : Except Err World := do
  let is ← arr_2d_size ball_counts
  match is with
  | (_, none) => .error .valueError
  | (isize, some jsize) =>
    if isize = 0 ∨ jsize = 0 then .error .valueError
    else do
      let hw := horizontal_walls.getD
        (List.replicate (isize - 1) (List.replicate jsize false))
      let _ ← ensure_size hw (isize - 1) jsize
      let vw := vertical_walls.getD
        (List.replicate isize (List.replicate (jsize - 1) false))
      let _ ← ensure_size hw isize (jsize - 1)
      let cin := colors.getD
        (List.replicate isize (List.replicate jsize (ColorInput.str "white")))
      let cols ← cin.mapM (fun row => row.mapM RGB.from_str)
      let _ ← ensure_size hw isize jsize
      let w : World := ⟨karel, ball_counts, hw, vw, cols⟩
      if ¬ w.size.in_bounds karel.position then .error .valueError
      else .ok w

/-- A grid is rectangular with the given row count and row length. -/
def rect (g : List (List α)) (rows cols : Nat) : Prop :=
  g.length = rows ∧ ∀ r ∈ g, r.length = cols

instance rectDecidable (g : List (List α)) (rows cols : Nat) :
    Decidable (rect g rows cols) :=
  decidable_of_iff (g.length = rows ∧ ∀ r ∈ g, r.length = cols) Iff.rfl

/-- The `World` invariants stated in the specification (section 3): the four
grids share the `(rows, cols)` shape derived from `ball_counts` with each wall
grid one smaller in its axis, both dimensions are at least 1, every ball count
is non-negative, and the robot is in bounds. -/
def World.WF (w : World) : Prop :=
  1 ≤ w.size.avenue ∧ 1 ≤ w.size.street ∧
  rect w.ball_counts w.size.street w.size.avenue ∧
  rect w.horizontal_walls (w.size.street - 1) w.size.avenue ∧
  rect w.vertical_walls w.size.street (w.size.avenue - 1) ∧
  rect w.colors w.size.street w.size.avenue ∧
  (∀ r ∈ w.ball_counts, ∀ x ∈ r, 0 ≤ x) ∧
  w.size.in_bounds w.karel.position = true

instance wfDecidable (w : World) : Decidable w.WF :=
  decidable_of_iff (1 ≤ w.size.avenue ∧ 1 ≤ w.size.street ∧
    rect w.ball_counts w.size.street w.size.avenue ∧
    rect w.horizontal_walls (w.size.street - 1) w.size.avenue ∧
    rect w.vertical_walls w.size.street (w.size.avenue - 1) ∧
    rect w.colors w.size.street w.size.avenue ∧
    (∀ r ∈ w.ball_counts, ∀ x ∈ r, 0 ≤ x) ∧
    w.size.in_bounds w.karel.position = true) Iff.rfl

/-- A 1-avenue × 1-street world holding one ball, robot at the origin facing
east (the state the source's `World.__init__` is documented to build but
cannot, see `c1_construction_always_fails` below). -/
def ex_1x1 : World := ⟨⟨⟨0, 0⟩, .east⟩, [[1]], [], [[]], [[white]]⟩

/-- A 2-avenue × 1-street world, no walls, robot at the origin facing east. -/
def ex_2x1 : World := ⟨⟨⟨0, 0⟩, .east⟩, [[0, 0]], [], [[false]],
  [[white, white]]⟩

/-- A 2-avenue × 2-street world, no walls, robot at the origin facing east. -/
def ex_2x2 : World := ⟨⟨⟨0, 0⟩, .east⟩, [[0, 0], [0, 0]], [[false, false]],
  [[false], [false]], [[white, white], [white, white]]⟩

theorem getD_drop (l : List α) (t i : Nat) (d : α) :
    (l.drop t).getD i d = l.getD (t + i) d := by
  simp [List.getD_eq_getElem?_getD, List.getElem?_drop]

theorem getD_append_left (l m : List α) (i : Nat) (d : α) (h : i < l.length) :
    (l ++ m).getD i d = l.getD i d := by
  simp [List.getD_eq_getElem?_getD, List.getElem?_append, h]

theorem getD_append_right (l m : List α) (i : Nat) (d : α) :
    (l ++ m).getD (l.length + i) d = m.getD i d := by
  simp [List.getD_eq_getElem?_getD, List.getElem?_append_right]

theorem getD_replicate (t i : Nat) (x d : α) (h : i < t) :
    (List.replicate t x).getD i d = x := by
  simp [List.getD_eq_getElem?_getD, List.getElem?_replicate, h]

theorem getD_take (l : List α) (n i : Nat) (d : α) (h : i < n) :
    (l.take n).getD i d = l.getD i d := by
  simp [List.getD_eq_getElem?_getD, List.getElem?_take, h]

theorem getD_set_self (l : List α) (i : Nat) (x d : α) (h : i < l.length) :
    (l.set i x).getD i d = x := by
  simp [List.getD_eq_getElem?_getD, List.getElem?_set_self, h]

theorem getD_set_ne (l : List α) (i j : Nat) (x d : α) (h : i ≠ j) :
    (l.set i x).getD j d = l.getD j d := by
  simp [List.getD_eq_getElem?_getD, List.getElem?_set_ne h]

theorem getD_map (g : List α) (f : α → β) (i : Nat) (d : β) (d' : α)
    (h : i < g.length) : (g.map f).getD i d = f (g.getD i d') := by
  simp [List.getD_eq_getElem?_getD, List.getElem?_map,
    List.getElem?_eq_getElem h]

theorem headD_eq_getD (l : List α) (d : α) : l.headD d = l.getD 0 d := by
  cases l <;> rfl

theorem getD_of_lt (l : List α) (i : Nat) (d : α) (h : i < l.length) :
    l.getD i d = l.get ⟨i, h⟩ := by
  simp [List.getD_eq_getElem?_getD, List.getElem?_eq_getElem h]

/-- Rows of a rectangular grid accessed in range have the stated length. -/
theorem rect_row_length (g : List (List α)) (R C i : Nat)
    (hr : rect g R C) (hi : i < R) : (g.getD i []).length = C := by
  obtain ⟨hlen, hrow⟩ := hr
  have hi' : i < g.length := by omega
  rw [getD_of_lt _ _ _ hi']
  exact hrow _ (List.get_mem g i hi')

theorem make_ok (a s : Int) (ha : 0 ≤ a) (hs : 0 ≤ s) :
    AvenueAndStreet.make a s = .ok ⟨a.toNat, s.toNat⟩ := by
  unfold AvenueAndStreet.make
  rw [if_neg (by omega)]

theorem make_err (a s : Int) (h : a < 0 ∨ s < 0) :
    AvenueAndStreet.make a s = .error .valueError := by
  unfold AvenueAndStreet.make
  rw [if_pos h]

theorem in_bounds_iff (sz p : AvenueAndStreet) :
    sz.in_bounds p = true ↔ p.avenue < sz.avenue ∧ p.street < sz.street := by
  simp [AvenueAndStreet.in_bounds]

/-- View of the ball storage through the `_list_index` mapping: the entry for
the cell at avenue `a`, street `s` is `ball_counts[S - s - 1][a]`. -/
def World.ball_at (w : World) (a s : Nat) : Int :=
  cell w.ball_counts 0 (w.size.street - 1 - s) a

/-- View of the color storage: the entry for avenue `a`, street `s`. -/
def World.color_cell (w : World) (a s : Nat) : RGB :=
  cell w.colors white (w.size.street - 1 - s) a

/-- Stored wall between streets `s` and `s + 1` at avenue `a`: the entry
`horizontal_walls[S - s - 2][a]` that `is_blocked` reads for north from
street `s` and for south from street `s + 1`. -/
def World.hwall_at (w : World) (a s : Nat) : Bool :=
  cell w.horizontal_walls false (w.size.street - 2 - s) a

/-- Stored wall between avenues `a` and `a + 1` at street `s`: the entry
`vertical_walls[S - s - 1][a]`. -/
def World.vwall_at (w : World) (a s : Nat) : Bool :=
  cell w.vertical_walls false (w.size.street - 1 - s) a

theorem ball_count_eq (w : World) (p : AvenueAndStreet)
    (hp : w.size.in_bounds p = true) :
    w.ball_count (some p) = .ok (w.ball_at p.avenue p.street) := by
  rw [in_bounds_iff] at hp
  unfold World.ball_count
  rw [if_neg (by rw [in_bounds_iff]; simpa using hp)]
  simp only [Option.getD_some]
  unfold World.list_index cellI World.ball_at
  have h1 : ((w.size.street : Int) - (p.street : Int) - 1).toNat
      = w.size.street - 1 - p.street := by omega
  have h2 : ((p.avenue : Int)).toNat = p.avenue := by omega
  rw [h1, h2]

theorem color_at_eq (w : World) (p : AvenueAndStreet)
    (hp : w.size.in_bounds p = true) :
    w.color_at (some p) = .ok (w.color_cell p.avenue p.street) := by
  rw [in_bounds_iff] at hp
  unfold World.color_at
  rw [if_neg (by rw [in_bounds_iff]; simpa using hp)]
  simp only [Option.getD_some]
  unfold World.list_index cellI World.color_cell
  have h1 : ((w.size.street : Int) - (p.street : Int) - 1).toNat
      = w.size.street - 1 - p.street := by omega
  have h2 : ((p.avenue : Int)).toNat = p.avenue := by omega
  rw [h1, h2]

/-- Characterization of `is_blocked_at` for an in-bounds position, in terms of
the stored-wall views: an edge on the outward boundary reads blocked, an
internal edge reads its single backing entry. -/
theorem is_blocked_at_eq (w : World) (p : AvenueAndStreet) (d : Direction)
    (hp : w.size.in_bounds p = true) :
    w.is_blocked_at p d =
      match d with
      | .north => if p.street + 1 < w.size.street then
          w.hwall_at p.avenue p.street else true
      | .south => if 0 < p.street then
          w.hwall_at p.avenue (p.street - 1) else true
      | .east => if p.avenue + 1 < w.size.avenue then
          w.vwall_at p.avenue p.street else true
      | .west => if 0 < p.avenue then
          w.vwall_at (p.avenue - 1) p.street else true := by
  rw [in_bounds_iff] at hp
  obtain ⟨ha, hs⟩ := hp
  unfold World.is_blocked_at cellI
  cases d
  · show (if _ then _ else _) = _
    by_cases hc : p.street + 1 < w.size.street
    · rw [if_pos (by constructor <;> omega), if_pos hc]
      unfold World.hwall_at
      have h1 : ((w.size.street : Int) - (p.street : Int) - 1 - 1).toNat
          = w.size.street - 2 - p.street := by omega
      have h2 : ((p.avenue : Int)).toNat = p.avenue := by omega
      rw [h1, h2]
    · rw [if_neg (by omega), if_neg hc]
  · show (if _ then _ else _) = _
    by_cases hc : 0 < p.street
    · rw [if_pos (by constructor <;> omega), if_pos hc]
      unfold World.hwall_at
      have h1 : ((w.size.street : Int) - (p.street : Int) - 1).toNat
          = w.size.street - 2 - (p.street - 1) := by omega
      have h2 : ((p.avenue : Int)).toNat = p.avenue := by omega
      rw [h1, h2]
    · rw [if_neg (by omega), if_neg hc]
  · show (if _ then _ else _) = _
    by_cases hc : p.avenue + 1 < w.size.avenue
    · rw [if_pos (by constructor <;> omega), if_pos hc]
      unfold World.vwall_at
      have h1 : ((w.size.street : Int) - (p.street : Int) - 1).toNat
          = w.size.street - 1 - p.street := by omega
      have h2 : ((p.avenue : Int)).toNat = p.avenue := by omega
      rw [h1, h2]
    · rw [if_neg (by omega), if_neg hc]
  · show (if _ then _ else _) = _
    by_cases hc : 0 < p.avenue
    · rw [if_pos (by constructor <;> omega), if_pos hc]
      unfold World.vwall_at
      have h1 : ((w.size.street : Int) - (p.street : Int) - 1).toNat
          = w.size.street - 1 - p.street := by omega
      have h2 : ((p.avenue : Int) - 1).toNat = p.avenue - 1 := by omega
      rw [h1, h2]
    · rw [if_neg (by omega), if_neg hc]

theorem is_blocked_eq (w : World) (p : AvenueAndStreet) (d : Direction)
    (hp : w.size.in_bounds p = true) :
    w.is_blocked (some p) (some d) = .ok (w.is_blocked_at p d) := by
  unfold World.is_blocked
  simp only [Option.getD_some]
  rw [if_neg (by simpa using hp)]

/-- Claim C1 (code bug): constructing a `World` from the perfectly valid
non-empty rectangular grid `ball_counts=[[0]]` with all defaults and the
default in-bounds robot does not succeed: `World.__init__` passes
`self._horizontal_walls` to the `_ensure_size` checks meant for
`vertical_walls` and `colors`, and since the horizontal-wall grid has one row
fewer than the `isize` those checks expect, every construction raises
`ValueError`. -/
theorem c1_construction_always_fails :
    World.init ⟨⟨0, 0⟩, .east⟩ [[0]] none none none = .error .valueError := by
  decide

/-- Claim C2 (code bug): assigning `None` to the `ball_counts` attribute of a
well-formed 2-avenue × 1-street world succeeds and rebuilds the ball grid as
`[[0], [0]]` — the setter's `None` branch builds `avenue` rows of `street`
columns against the street-rows × avenue-columns storage layout — leaving a
world whose grids no longer share a consistent shape, so the mutation does not
preserve the `World` invariants. -/
theorem c2_ball_counts_setter_breaks_invariants :
    ex_2x1.WF ∧
    ex_2x1.ball_counts_set none =
      .ok ⟨⟨⟨0, 0⟩, .east⟩, [[0], [0]], [], [[false]], [[white, white]]⟩ ∧
    ¬ (⟨⟨⟨0, 0⟩, .east⟩, [[0], [0]], [], [[false]],
      [[white, white]]⟩ : World).WF := by
  refine ⟨by decide, by decide, by decide⟩

/-- Claim C4 (code bug): constructing a `World` from
`ball_counts=[[0,0],[0,0]]` raises `ValueError` (the misdirected
`_ensure_size` checks of `World.__init__`, see `c1_construction_always_fails`),
so the paint scenario cannot start from the constructor; on the 2×2 world
state the constructor is documented to build, painting the color value that
the parser resolves from `"red"` at the default robot position and then
querying `color_at` does return `RGB(255, 0, 0)`. -/
theorem c4_paint_scenario :
    World.init ⟨⟨0, 0⟩, .east⟩ [[0, 0], [0, 0]] none none none
      = .error .valueError ∧
    (((RGB.from_str (.str "red")).bind
      (fun c => ex_2x2.paint c none)).bind
      (fun w => w.color_at none)) = .ok ⟨255, 0, 0⟩ := by
  refine ⟨by decide, by decide⟩

/-- Claim C3 (counterexample): `moved` south from street 0 does not return an
offset position — the `with_street` call reaches the validating
`AvenueAndStreet` constructor, which rejects the negative coordinate with
`ValueError`, contradicting the claim that the offset is not rejected at the
point of constructing the offset position. -/
theorem c3_moved_rejects_negative :
    AvenueAndStreet.moved ⟨0, 0⟩ .south = .error .valueError := by decide

/-- Claim C3 (amended): `moved` returns the position offset by exactly 1 along
the direction's axis whenever both coordinates of the result are non-negative
(north and east always; south and west when the coordinate being decremented
is positive); when the offset would produce a negative coordinate, the
constructor called by `moved` rejects it with a `ValueError`, so rejection
happens at construction of the offset position rather than at a bounds
check. -/
theorem c3_moved_spec (p : AvenueAndStreet) (d : Direction) :
    (d = .north → p.moved d = .ok ⟨p.avenue, p.street + 1⟩) ∧
    (d = .east → p.moved d = .ok ⟨p.avenue + 1, p.street⟩) ∧
    (d = .south → 0 < p.street → p.moved d = .ok ⟨p.avenue, p.street - 1⟩) ∧
    (d = .south → p.street = 0 → p.moved d = .error .valueError) ∧
    (d = .west → 0 < p.avenue → p.moved d = .ok ⟨p.avenue - 1, p.street⟩) ∧
    (d = .west → p.avenue = 0 → p.moved d = .error .valueError) := by
  have ha0 : ((p.avenue : Int)).toNat = p.avenue := by omega
  have hs0 : ((p.street : Int)).toNat = p.street := by omega
  refine ⟨?_, ?_, ?_, ?_, ?_, ?_⟩
  · rintro rfl
    show p.with_street _ = _
    unfold AvenueAndStreet.with_street
    have h2 : ((p.street : Int) + 1).toNat = p.street + 1 := by omega
    rw [make_ok _ _ (by omega) (by omega), ha0, h2]
  · rintro rfl
    show p.with_avenue _ = _
    unfold AvenueAndStreet.with_avenue
    have h1 : ((p.avenue : Int) + 1).toNat = p.avenue + 1 := by omega
    rw [make_ok _ _ (by omega) (by omega), h1, hs0]
  · rintro rfl hs
    show p.with_street _ = _
    unfold AvenueAndStreet.with_street
    have h2 : ((p.street : Int) - 1).toNat = p.street - 1 := by omega
    rw [make_ok _ _ (by omega) (by omega), ha0, h2]
  · rintro rfl hs
    show p.with_street _ = _
    unfold AvenueAndStreet.with_street
    exact make_err _ _ (by omega)
  · rintro rfl ha
    show p.with_avenue _ = _
    unfold AvenueAndStreet.with_avenue
    have h1 : ((p.avenue : Int) - 1).toNat = p.avenue - 1 := by omega
    rw [make_ok _ _ (by omega) (by omega), h1, hs0]
  · rintro rfl ha
    show p.with_avenue _ = _
    unfold AvenueAndStreet.with_avenue
    exact make_err _ _ (by omega)

/-- Witness for `c3_moved_spec` at concrete inputs. -/
theorem c3_moved_spec_witness :
    AvenueAndStreet.moved ⟨2, 3⟩ .north = .ok ⟨2, 4⟩ ∧
    AvenueAndStreet.moved ⟨2, 3⟩ .south = .ok ⟨2, 2⟩ ∧
    AvenueAndStreet.moved ⟨0, 5⟩ .west = .error .valueError :=
  ⟨(c3_moved_spec ⟨2, 3⟩ .north).1 rfl,
   (c3_moved_spec ⟨2, 3⟩ .south).2.2.1 rfl (by decide),
   (c3_moved_spec ⟨0, 5⟩ .west).2.2.2.2.2 rfl rfl⟩

/-- The edge from position `p` in direction `d` points outward across the
`sz` boundary: stepping from `p` along `d` would leave the bounds. -/
def outward (sz p : AvenueAndStreet) (d : Direction) : Prop :=
  match d with
  | .north => sz.street ≤ p.street + 1
  | .south => p.street = 0
  | .east => sz.avenue ≤ p.avenue + 1
  | .west => p.avenue = 0

instance outwardDecidable (sz p : AvenueAndStreet) (d : Direction) :
    Decidable (outward sz p d) :=
  match d with
  | .north => inferInstanceAs (Decidable (sz.street ≤ p.street + 1))
  | .south => inferInstanceAs (Decidable (p.street = 0))
  | .east => inferInstanceAs (Decidable (sz.avenue ≤ p.avenue + 1))
  | .west => inferInstanceAs (Decidable (p.avenue = 0))

/-- Claim C7: for an in-bounds position and a direction pointing outward
across the grid boundary, `is_blocked` answers `True` without raising, while
`set_is_blocked` at the same outward edge raises the out-of-range condition
(`IndexError`, a different exception kind than the `ValueError` of
construction validation) and, returning no world, leaves the world as it
was. -/
theorem c7_boundary_edges (w : World) (p : AvenueAndStreet) (d : Direction)
    (b : Bool) (hp : w.size.in_bounds p = true)
    (hout : outward w.size p d) :
    w.is_blocked (some p) (some d) = .ok true ∧
    w.set_is_blocked b (some p) (some d) = .error .indexError ∧
    Err.indexError ≠ Err.valueError := by
  have hb := hp
  rw [in_bounds_iff] at hb
  refine ⟨?_, ?_, by decide⟩
  · rw [is_blocked_eq _ _ _ hp, is_blocked_at_eq _ _ _ hp]
    cases d <;> simp only [outward] at hout
    · show Except.ok (if p.street + 1 < w.size.street then
        w.hwall_at p.avenue p.street else true) = Except.ok true
      rw [if_neg (by omega)]
    · show Except.ok (if 0 < p.street then
        w.hwall_at p.avenue (p.street - 1) else true) = Except.ok true
      rw [if_neg (by omega)]
    · show Except.ok (if p.avenue + 1 < w.size.avenue then
        w.vwall_at p.avenue p.street else true) = Except.ok true
      rw [if_neg (by omega)]
    · show Except.ok (if 0 < p.avenue then
        w.vwall_at (p.avenue - 1) p.street else true) = Except.ok true
      rw [if_neg (by omega)]
  · unfold World.set_is_blocked
    simp only [Option.getD_some]
    rw [if_neg (by simpa using hp)]
    cases d <;> simp only [outward] at hout
    · show (if _ then _ else _) = _
      rw [if_neg (by omega)]
    · show (if _ then _ else _) = _
      rw [if_neg (by omega)]
    · show (if _ then _ else _) = _
      rw [if_neg (by omega)]
    · show (if _ then _ else _) = _
      rw [if_neg (by omega)]

/-- Witness for `c7_boundary_edges`: the single cell of a 1×1 world, looking
north. -/
theorem c7_boundary_edges_witness :
    ex_1x1.is_blocked (some ⟨0, 0⟩) (some .north) = .ok true ∧
    ex_1x1.set_is_blocked true (some ⟨0, 0⟩) (some .north)
      = .error .indexError ∧
    Err.indexError ≠ Err.valueError :=
  c7_boundary_edges ex_1x1 ⟨0, 0⟩ .north true (by decide) (by decide)

/-- The 20 operation names of the base ("normal") tier table, in the source's
insertion order. -/
def normal_tier_names : List String :=
  ["move", "turn_left", "put_ball", "take_ball", "balls_present",
   "no_balls_present", "front_is_clear", "left_is_clear", "right_is_clear",
   "front_is_blocked", "left_is_blocked", "right_is_blocked",
   "facing_north", "facing_south", "facing_east", "facing_west",
   "not_facing_north", "not_facing_south", "not_facing_east",
   "not_facing_west"]

/-- Claim C8: for every world, the "normal" table binds exactly the 20 listed
operation names; "super" binds exactly those plus `turn_right` and
`turn_around`; "ultra" binds exactly the super set plus the color-name table
(`color`), `paint` and `color_is`; the three name sets are strictly nested;
and any other tier name raises `ValueError`. -/
theorem c8_tier_tables (w : World) :
    w.globals_names "normal" = .ok normal_tier_names ∧
    w.globals_names "super"
      = .ok (normal_tier_names ++ ["turn_right", "turn_around"]) ∧
    w.globals_names "ultra"
      = .ok (normal_tier_names ++ ["turn_right", "turn_around"]
          ++ ["color", "paint", "color_is"]) ∧
    normal_tier_names ⊆ normal_tier_names ++ ["turn_right", "turn_around"] ∧
    normal_tier_names ++ ["turn_right", "turn_around"]
      ⊆ normal_tier_names ++ ["turn_right", "turn_around"]
          ++ ["color", "paint", "color_is"] ∧
    "turn_right" ∉ normal_tier_names ∧
    "paint" ∉ normal_tier_names ++ ["turn_right", "turn_around"] ∧
    (∀ m : String, m ≠ "normal" → m ≠ "super" → m ≠ "ultra" →
      w.globals_names m = .error .valueError) := by
  refine ⟨?_, ?_, ?_, by decide, by decide, by decide, by decide, ?_⟩
  · unfold World.globals_names
    rw [if_neg (by simp)]
    rw [if_neg (by decide), if_neg (by decide)]
    rfl
  · unfold World.globals_names
    rw [if_neg (by simp)]
    rw [if_pos (by decide)]
    rfl
  · unfold World.globals_names
    rw [if_neg (by simp)]
    rw [if_pos (by decide), if_pos (by decide)]
    rfl
  · intro m h1 h2 h3
    unfold World.globals_names
    rw [if_pos ⟨h1, h2, h3⟩]

/-- Witness for `c8_tier_tables` at a concrete world and a concrete invalid
tier name. -/
theorem c8_tier_tables_witness :
    ex_1x1.globals_names "normal" = .ok normal_tier_names ∧
    ex_1x1.globals_names "mega" = .error .valueError :=
  ⟨(c8_tier_tables ex_1x1).1,
   (c8_tier_tables ex_1x1).2.2.2.2.2.2.2 "mega" (by decide) (by decide)
     (by decide)⟩

theorem is_blocked_default_ok (w : World) (dopt : Option Direction)
    (h : w.size.in_bounds w.karel.position = true) :
    w.is_blocked none dopt
      = .ok (w.is_blocked_at w.karel.position (dopt.getD w.karel.direction)) := by
  unfold World.is_blocked
  simp only [Option.getD_none]
  rw [if_neg (by simpa using h)]

theorem color_at_default_ok (w : World)
    (h : w.size.in_bounds w.karel.position = true) :
    w.color_at none
      = .ok (w.color_cell w.karel.position.avenue w.karel.position.street) := by
  unfold World.color_at
  simp only [Option.getD_none]
  rw [if_neg (by simpa using h)]
  unfold World.list_index cellI World.color_cell
  have h' := h
  rw [in_bounds_iff] at h'
  have h1 : ((w.size.street : Int) - (w.karel.position.street : Int) - 1).toNat
      = w.size.street - 1 - w.karel.position.street := by omega
  have h2 : ((w.karel.position.avenue : Int)).toNat
      = w.karel.position.avenue := by omega
  rw [h1, h2]

/-- Claim C9 (counterexample): `color_is` is listed among the derived boolean
queries that never fail for an in-bounds robot, yet on a well-formed world it
raises `ValueError` when its color argument is an unrecognized string. -/
theorem c9_color_is_can_fail :
    ex_2x1.WF ∧ ex_2x1.color_is (.str "") = .error .valueError := by
  refine ⟨by decide, by decide⟩

/-- Claim C9 (amended): for every well-formed world (robot in bounds), the
derived boolean queries front/left/right_is_clear, front/left/right_is_blocked,
balls_present and no_balls_present return a boolean without raising (the
facing / not_facing family is Bool-valued in the model and cannot fail at
all), and `color_is` also returns a boolean without raising provided its
argument is an `RGB` value or a string the color table recognizes — for an
unrecognized string it raises a validation failure instead.  All queries are
non-mutating: they return no modified world. -/
theorem c9_queries_no_failure (w : World) (hwf : w.WF) :
    (∃ b, w.front_is_clear = .ok b) ∧ (∃ b, w.left_is_clear = .ok b) ∧
    (∃ b, w.right_is_clear = .ok b) ∧ (∃ b, w.front_is_blocked = .ok b) ∧
    (∃ b, w.left_is_blocked = .ok b) ∧ (∃ b, w.right_is_blocked = .ok b) ∧
    (∃ b, w.balls_present none = .ok b) ∧
    (∃ b, w.no_balls_present none = .ok b) ∧
    (∀ c : RGB, ∃ b, w.color_is (.rgb c) = .ok b) ∧
    (∀ s v, color.lookup (py_lower s) = some v →
      ∃ b, w.color_is (.str s) = .ok b) := by
  have hk : w.size.in_bounds w.karel.position = true :=
    hwf.2.2.2.2.2.2.2
  have hball := ball_count_eq w w.karel.position hk
  have hca := color_at_default_ok w hk
  refine ⟨?_, ?_, ?_, ?_, ?_, ?_, ?_, ?_, ?_, ?_⟩
  · unfold World.front_is_clear World.is_clear
    rw [is_blocked_default_ok w none hk]
    exact ⟨_, rfl⟩
  · unfold World.left_is_clear World.is_clear
    rw [is_blocked_default_ok w _ hk]
    exact ⟨_, rfl⟩
  · unfold World.right_is_clear World.is_clear
    rw [is_blocked_default_ok w _ hk]
    exact ⟨_, rfl⟩
  · unfold World.front_is_blocked
    rw [is_blocked_default_ok w none hk]
    exact ⟨_, rfl⟩
  · unfold World.left_is_blocked
    rw [is_blocked_default_ok w _ hk]
    exact ⟨_, rfl⟩
  · unfold World.right_is_blocked
    rw [is_blocked_default_ok w _ hk]
    exact ⟨_, rfl⟩
  · unfold World.balls_present
    simp only [Option.getD_none]
    rw [hball]
    exact ⟨_, rfl⟩
  · unfold World.no_balls_present World.balls_present
    simp only [Option.getD_none]
    rw [hball]
    exact ⟨_, rfl⟩
  · intro c
    unfold World.color_is
    rw [hca]
    exact ⟨_, rfl⟩
  · intro s v hl
    unfold World.color_is
    rw [hca]
    have hfs : RGB.from_str (.str s) = .ok v := by
      simp only [RGB.from_str, hl]
    rw [hfs]
    exact ⟨_, rfl⟩

/-- Witness for `c9_queries_no_failure` at a concrete world, color value and
recognized color name. -/
theorem c9_queries_no_failure_witness :
    (∃ b, ex_2x1.front_is_clear = .ok b) ∧
    (∃ b, ex_2x1.color_is (.rgb ⟨1, 2, 3⟩) = .ok b) ∧
    (∃ b, ex_2x1.color_is (.str "Red") = .ok b) :=
  ⟨(c9_queries_no_failure ex_2x1 (by decide)).1,
   (c9_queries_no_failure ex_2x1 (by decide)).2.2.2.2.2.2.2.2.1 ⟨1, 2, 3⟩,
   (c9_queries_no_failure ex_2x1 (by decide)).2.2.2.2.2.2.2.2.2 "Red"
     ⟨255, 0, 0⟩ (by decide)⟩

/-- Claim C5: for every well-formed world (robot in bounds at position p
facing d), `front_is_blocked` is defined, `move` raises `ValueError` exactly
when the front is blocked (producing no world, so the world is unchanged), and
otherwise succeeds with the robot's position becoming `p.moved(d)`, the
direction unchanged, and every grid untouched — it never clamps. -/
theorem c5_move_spec (w : World) (hwf : w.WF) :
    (∃ b, w.front_is_blocked = .ok b) ∧
    (w.front_is_blocked = .ok true → w.move = .error .valueError) ∧
    (w.front_is_blocked = .ok false → ∃ w', w.move = .ok w' ∧
      w.karel.position.moved w.karel.direction = .ok w'.karel.position ∧
      w'.karel.direction = w.karel.direction ∧
      w'.ball_counts = w.ball_counts ∧
      w'.horizontal_walls = w.horizontal_walls ∧
      w'.vertical_walls = w.vertical_walls ∧ w'.colors = w.colors) := by
  have hk : w.size.in_bounds w.karel.position = true := hwf.2.2.2.2.2.2.2
  have hkb := hk
  rw [in_bounds_iff] at hkb
  have hfb : w.front_is_blocked
      = .ok (w.is_blocked_at w.karel.position w.karel.direction) := by
    unfold World.front_is_blocked
    rw [is_blocked_default_ok w none hk]
    rfl
  refine ⟨⟨_, hfb⟩, ?_, ?_⟩
  · intro htrue
    rw [hfb] at htrue
    have hval : w.is_blocked_at w.karel.position w.karel.direction = true :=
      Except.ok.inj htrue
    unfold World.move
    rw [hfb, hval]
    rfl
  · intro hfalse
    rw [hfb] at hfalse
    have hval0 : w.is_blocked_at w.karel.position w.karel.direction = false :=
      Except.ok.inj hfalse
    have hval := hval0
    rw [is_blocked_at_eq w _ _ hk] at hval
    cases hdir : w.karel.direction <;> rw [hdir] at hval
    · have hc : w.karel.position.street + 1 < w.size.street := by
        by_contra hc
        rw [if_neg hc] at hval
        exact Bool.true_eq_false.mp hval
      have hmv : w.karel.position.moved Direction.north
          = .ok ⟨w.karel.position.avenue, w.karel.position.street + 1⟩ := by
        show w.karel.position.with_street _ = _
        unfold AvenueAndStreet.with_street
        have h1 : (((w.karel.position.avenue : Int))).toNat = w.karel.position.avenue := by omega
        have h2 : (((w.karel.position.street : Int) + 1)).toNat = w.karel.position.street + 1 := by omega
        rw [make_ok _ _ (by omega) (by omega), h1, h2]
      have hmv' : w.karel.position.moved w.karel.direction
          = .ok ⟨w.karel.position.avenue, w.karel.position.street + 1⟩ := by
        rw [hdir]; exact hmv
      have hkm : w.karel.moved = .ok ⟨⟨w.karel.position.avenue, w.karel.position.street + 1⟩, Direction.north⟩ := by
        unfold Karel.moved
        rw [hmv']
        show Except.ok (w.karel.moved_to ⟨w.karel.position.avenue, w.karel.position.street + 1⟩) = _
        unfold Karel.moved_to
        rw [hdir]
      have hmove : w.move
          = .ok { w with karel := ⟨⟨w.karel.position.avenue, w.karel.position.street + 1⟩, Direction.north⟩ } := by
        unfold World.move
        rw [hfb, hval0]
        show (w.karel.moved.bind fun k => w.set_karel k) = _
        rw [hkm]
        show w.set_karel _ = _
        unfold World.set_karel
        rw [if_neg (by
          simp only [AvenueAndStreet.in_bounds, not_not, Bool.and_eq_true,
            decide_eq_true_eq]
          exact ⟨by omega, by omega⟩)]
      exact ⟨_, hmove, hmv, rfl, rfl, rfl, rfl, rfl⟩
    · have hc : 0 < w.karel.position.street := by
        by_contra hc
        rw [if_neg hc] at hval
        exact Bool.true_eq_false.mp hval
      have hmv : w.karel.position.moved Direction.south
          = .ok ⟨w.karel.position.avenue, w.karel.position.street - 1⟩ := by
        show w.karel.position.with_street _ = _
        unfold AvenueAndStreet.with_street
        have h1 : (((w.karel.position.avenue : Int))).toNat = w.karel.position.avenue := by omega
        have h2 : (((w.karel.position.street : Int) - 1)).toNat = w.karel.position.street - 1 := by omega
        rw [make_ok _ _ (by omega) (by omega), h1, h2]
      have hmv' : w.karel.position.moved w.karel.direction
          = .ok ⟨w.karel.position.avenue, w.karel.position.street - 1⟩ := by
        rw [hdir]; exact hmv
      have hkm : w.karel.moved = .ok ⟨⟨w.karel.position.avenue, w.karel.position.street - 1⟩, Direction.south⟩ := by
        unfold Karel.moved
        rw [hmv']
        show Except.ok (w.karel.moved_to ⟨w.karel.position.avenue, w.karel.position.street - 1⟩) = _
        unfold Karel.moved_to
        rw [hdir]
      have hmove : w.move
          = .ok { w with karel := ⟨⟨w.karel.position.avenue, w.karel.position.street - 1⟩, Direction.south⟩ } := by
        unfold World.move
        rw [hfb, hval0]
        show (w.karel.moved.bind fun k => w.set_karel k) = _
        rw [hkm]
        show w.set_karel _ = _
        unfold World.set_karel
        rw [if_neg (by
          simp only [AvenueAndStreet.in_bounds, not_not, Bool.and_eq_true,
            decide_eq_true_eq]
          exact ⟨by omega, by omega⟩)]
      exact ⟨_, hmove, hmv, rfl, rfl, rfl, rfl, rfl⟩
    · have hc : w.karel.position.avenue + 1 < w.size.avenue := by
        by_contra hc
        rw [if_neg hc] at hval
        exact Bool.true_eq_false.mp hval
      have hmv : w.karel.position.moved Direction.east
          = .ok ⟨w.karel.position.avenue + 1, w.karel.position.street⟩ := by
        show w.karel.position.with_avenue _ = _
        unfold AvenueAndStreet.with_avenue
        have h1 : (((w.karel.position.avenue : Int) + 1)).toNat = w.karel.position.avenue + 1 := by omega
        have h2 : (((w.karel.position.street : Int))).toNat = w.karel.position.street := by omega
        rw [make_ok _ _ (by omega) (by omega), h1, h2]
      have hmv' : w.karel.position.moved w.karel.direction
          = .ok ⟨w.karel.position.avenue + 1, w.karel.position.street⟩ := by
        rw [hdir]; exact hmv
      have hkm : w.karel.moved = .ok ⟨⟨w.karel.position.avenue + 1, w.karel.position.street⟩, Direction.east⟩ := by
        unfold Karel.moved
        rw [hmv']
        show Except.ok (w.karel.moved_to ⟨w.karel.position.avenue + 1, w.karel.position.street⟩) = _
        unfold Karel.moved_to
        rw [hdir]
      have hmove : w.move
          = .ok { w with karel := ⟨⟨w.karel.position.avenue + 1, w.karel.position.street⟩, Direction.east⟩ } := by
        unfold World.move
        rw [hfb, hval0]
        show (w.karel.moved.bind fun k => w.set_karel k) = _
        rw [hkm]
        show w.set_karel _ = _
        unfold World.set_karel
        rw [if_neg (by
          simp only [AvenueAndStreet.in_bounds, not_not, Bool.and_eq_true,
            decide_eq_true_eq]
          exact ⟨by omega, by omega⟩)]
      exact ⟨_, hmove, hmv, rfl, rfl, rfl, rfl, rfl⟩
    · have hc : 0 < w.karel.position.avenue := by
        by_contra hc
        rw [if_neg hc] at hval
        exact Bool.true_eq_false.mp hval
      have hmv : w.karel.position.moved Direction.west
          = .ok ⟨w.karel.position.avenue - 1, w.karel.position.street⟩ := by
        show w.karel.position.with_avenue _ = _
        unfold AvenueAndStreet.with_avenue
        have h1 : (((w.karel.position.avenue : Int) - 1)).toNat = w.karel.position.avenue - 1 := by omega
        have h2 : (((w.karel.position.street : Int))).toNat = w.karel.position.street := by omega
        rw [make_ok _ _ (by omega) (by omega), h1, h2]
      have hmv' : w.karel.position.moved w.karel.direction
          = .ok ⟨w.karel.position.avenue - 1, w.karel.position.street⟩ := by
        rw [hdir]; exact hmv
      have hkm : w.karel.moved = .ok ⟨⟨w.karel.position.avenue - 1, w.karel.position.street⟩, Direction.west⟩ := by
        unfold Karel.moved
        rw [hmv']
        show Except.ok (w.karel.moved_to ⟨w.karel.position.avenue - 1, w.karel.position.street⟩) = _
        unfold Karel.moved_to
        rw [hdir]
      have hmove : w.move
          = .ok { w with karel := ⟨⟨w.karel.position.avenue - 1, w.karel.position.street⟩, Direction.west⟩ } := by
        unfold World.move
        rw [hfb, hval0]
        show (w.karel.moved.bind fun k => w.set_karel k) = _
        rw [hkm]
        show w.set_karel _ = _
        unfold World.set_karel
        rw [if_neg (by
          simp only [AvenueAndStreet.in_bounds, not_not, Bool.and_eq_true,
            decide_eq_true_eq]
          exact ⟨by omega, by omega⟩)]
      exact ⟨_, hmove, hmv, rfl, rfl, rfl, rfl, rfl⟩

/-- Witness for `c5_move_spec`: blocked in the 1×1 world, clear in the 2×1
world. -/
theorem c5_move_spec_witness :
    ex_1x1.move = .error .valueError ∧
    (∃ w', ex_2x1.move = .ok w' ∧
      ex_2x1.karel.position.moved ex_2x1.karel.direction
        = .ok w'.karel.position ∧
      w'.karel.direction = ex_2x1.karel.direction ∧
      w'.ball_counts = ex_2x1.ball_counts ∧
      w'.horizontal_walls = ex_2x1.horizontal_walls ∧
      w'.vertical_walls = ex_2x1.vertical_walls ∧
      w'.colors = ex_2x1.colors) :=
  ⟨(c5_move_spec ex_1x1 (by decide)).2.1 (by decide),
   (c5_move_spec ex_2x1 (by decide)).2.2 (by decide)⟩

theorem getD_eq_default (l : List α) (n : Nat) (d : α) (h : l.length ≤ n) :
    l.getD n d = d := by
  simp [List.getD_eq_getElem?_getD, List.getElem?_eq_none h]

theorem cell_update2_self (g : List (List α)) (d x : α) (i j : Nat)
    (hi : i < g.length) (hj : j < (g.getD i []).length) :
    cell (update2 g i j x) d i j = x := by
  unfold cell update2
  rw [getD_set_self _ _ _ _ hi, getD_set_self _ _ _ _ hj]

theorem cell_update2_ne (g : List (List α)) (d x : α) (i j i' j' : Nat)
    (h : i ≠ i' ∨ j ≠ j') :
    cell (update2 g i j x) d i' j' = cell g d i' j' := by
  unfold cell update2
  rcases h with h | h
  · rw [getD_set_ne _ _ _ _ _ h]
  · rcases eq_or_ne i i' with rfl | hne
    · by_cases hl : i < g.length
      · rw [getD_set_self _ _ _ _ hl, getD_set_ne _ _ _ _ _ h]
      · rw [getD_eq_default (g.set i ((g.getD i []).set j x)) i []
            (by rw [List.length_set]; omega),
          getD_eq_default g i [] (by omega)]
    · rw [getD_set_ne _ _ _ _ _ hne]

theorem update2_row_length (g : List (List α)) (i j k : Nat) (x : α) :
    ((update2 g i j x).getD k []).length = (g.getD k []).length := by
  unfold update2
  rcases eq_or_ne i k with rfl | hne
  · by_cases hl : i < g.length
    · rw [getD_set_self _ _ _ _ hl, List.length_set]
    · rw [getD_eq_default (g.set i ((g.getD i []).set j x)) i []
          (by rw [List.length_set]; omega),
        getD_eq_default g i [] (by omega)]
  · rw [getD_set_ne _ _ _ _ _ hne]

/-- Writing one ball-count entry does not change the derived size. -/
theorem size_update2_ball (w : World) (i j : Nat) (x : Int) :
    ({ w with ball_counts := update2 w.ball_counts i j x } : World).size
      = w.size := by
  unfold World.size
  show (⟨((update2 w.ball_counts i j x).headD []).length,
    (update2 w.ball_counts i j x).length⟩ : AvenueAndStreet) = _
  rw [headD_eq_getD, headD_eq_getD, update2_row_length]
  unfold update2
  rw [List.length_set]

theorem set_ball_count_spec (w : World) (p : AvenueAndStreet) (n : Int)
    (hp : w.size.in_bounds p = true) (hn : ¬ n < 0) :
    w.set_ball_count n (some p) = .ok { w with ball_counts := update2 w.ball_counts (w.size.street - 1 - p.street) p.avenue n } := by
  have hb := hp
  rw [in_bounds_iff] at hb
  unfold World.set_ball_count
  simp only [Option.getD_some]
  rw [if_neg (by simpa using hp), if_neg hn]
  unfold World.list_index
  have h1 : ((w.size.street : Int) - (p.street : Int) - 1).toNat
      = w.size.street - 1 - p.street := by omega
  have h2 : ((p.avenue : Int)).toNat = p.avenue := by omega
  rw [h1, h2]

theorem set_ball_count_neg (w : World) (p : AvenueAndStreet) (n : Int)
    (hp : w.size.in_bounds p = true) (hn : n < 0) :
    w.set_ball_count n (some p) = .error .valueError := by
  unfold World.set_ball_count
  simp only [Option.getD_some]
  rw [if_neg (by simpa using hp), if_pos hn]

/-- In a well-formed world every stored ball count is non-negative. -/
theorem wf_ball_nonneg (w : World) (hwf : w.WF) (a s : Nat)
    (ha : a < w.size.avenue) (hs : s < w.size.street) : 0 ≤ w.ball_at a s := by
  have hrect := hwf.2.2.1
  have hnn := hwf.2.2.2.2.2.2.1
  unfold World.ball_at cell
  have hi : w.size.street - 1 - s < w.ball_counts.length := by
    rw [hrect.1]
    omega
  rw [getD_of_lt _ _ _ hi]
  have hrmem : w.ball_counts.get ⟨w.size.street - 1 - s, hi⟩ ∈ w.ball_counts :=
    List.get_mem _ _ _
  have hrl : (w.ball_counts.get ⟨w.size.street - 1 - s, hi⟩).length
      = w.size.avenue := hrect.2 _ hrmem
  have hj : a < (w.ball_counts.get ⟨w.size.street - 1 - s, hi⟩).length := by
    omega
  rw [getD_of_lt _ _ _ hj]
  exact hnn _ hrmem _ (List.get_mem _ _ _)

/-- Claim C10: on a well-formed world, `put_ball` at an in-bounds position `p`
(the position defaults to the robot's when omitted) increments exactly the
ball count at `p`, leaving every other cell's count, all walls, all colors,
the robot state and the size unchanged; `take_ball` decrements it with the
same frame, and raises `ValueError` (returning no world, hence changing
nothing) when the count at `p` is zero. -/
theorem c10_put_take_spec (w : World) (p : AvenueAndStreet) (hwf : w.WF)
    (hp : w.size.in_bounds p = true) :
    ∃ c w₁,
      w.ball_count (some p) = .ok c ∧ 0 ≤ c ∧
      w.put_ball (some p) = .ok w₁ ∧
      w₁.ball_count (some p) = .ok (c + 1) ∧
      (∀ q, w.size.in_bounds q = true → q ≠ p →
        w₁.ball_count (some q) = w.ball_count (some q)) ∧
      w₁.karel = w.karel ∧ w₁.horizontal_walls = w.horizontal_walls ∧
      w₁.vertical_walls = w.vertical_walls ∧ w₁.colors = w.colors ∧
      w₁.size = w.size ∧
      (0 < c → ∃ w₂, w.take_ball (some p) = .ok w₂ ∧
        w₂.ball_count (some p) = .ok (c - 1) ∧
        (∀ q, w.size.in_bounds q = true → q ≠ p →
          w₂.ball_count (some q) = w.ball_count (some q)) ∧
        w₂.karel = w.karel ∧ w₂.horizontal_walls = w.horizontal_walls ∧
        w₂.vertical_walls = w.vertical_walls ∧ w₂.colors = w.colors ∧
        w₂.size = w.size) ∧
      (c = 0 → w.take_ball (some p) = .error .valueError) := by
  have hb := hp
  rw [in_bounds_iff] at hb
  have hrect := hwf.2.2.1
  have hc0 : 0 ≤ w.ball_at p.avenue p.street :=
    wf_ball_nonneg w hwf p.avenue p.street hb.1 hb.2
  have hi : w.size.street - 1 - p.street < w.ball_counts.length := by
    rw [hrect.1]
    omega
  have hj : p.avenue
      < (w.ball_counts.getD (w.size.street - 1 - p.street) []).length := by
    rw [rect_row_length w.ball_counts w.size.street w.size.avenue
      (w.size.street - 1 - p.street) hrect (by omega)]
    omega
  have hdistinct : ∀ q : AvenueAndStreet, w.size.in_bounds q = true → q ≠ p →
      w.size.street - 1 - p.street ≠ w.size.street - 1 - q.street ∨
      p.avenue ≠ q.avenue := by
    intro q hq hne
    rw [in_bounds_iff] at hq
    by_contra hcon
    push_neg at hcon
    have hqs : q.street = p.street := by omega
    have hqa : q.avenue = p.avenue := hcon.2.symm
    exact hne (by cases q; cases p; simp_all)
  have hupd : ∀ n : Int, ¬ n < 0 →
      w.set_ball_count n (some p) = .ok { w with ball_counts := update2 w.ball_counts (w.size.street - 1 - p.street) p.avenue n } ∧
      ({ w with ball_counts := update2 w.ball_counts (w.size.street - 1 - p.street) p.avenue n } : World).ball_count (some p) = .ok n ∧
      (∀ q, w.size.in_bounds q = true → q ≠ p →
        ({ w with ball_counts := update2 w.ball_counts (w.size.street - 1 - p.street) p.avenue n } : World).ball_count (some q) = w.ball_count (some q)) ∧
      ({ w with ball_counts := update2 w.ball_counts (w.size.street - 1 - p.street) p.avenue n } : World).size = w.size := by
    intro n hn
    have hsz := size_update2_ball w (w.size.street - 1 - p.street) p.avenue n
    have hp1 : ({ w with ball_counts := update2 w.ball_counts (w.size.street - 1 - p.street) p.avenue n } : World).size.in_bounds p = true := by
      rw [hsz]
      exact hp
    refine ⟨set_ball_count_spec w p n hp hn, ?_, ?_, hsz⟩
    · rw [ball_count_eq _ p hp1]
      unfold World.ball_at
      rw [hsz]
      show Except.ok (cell (update2 w.ball_counts (w.size.street - 1 - p.street) p.avenue n) 0 (w.size.street - 1 - p.street) p.avenue) = _
      rw [cell_update2_self _ _ _ _ _ hi hj]
    · intro q hq hne
      have hq1 : ({ w with ball_counts := update2 w.ball_counts (w.size.street - 1 - p.street) p.avenue n } : World).size.in_bounds q = true := by
        rw [hsz]
        exact hq
      rw [ball_count_eq _ q hq1, ball_count_eq w q hq]
      unfold World.ball_at
      rw [hsz]
      show Except.ok (cell (update2 w.ball_counts (w.size.street - 1 - p.street) p.avenue n) 0 (w.size.street - 1 - q.street) q.avenue) = _
      rw [cell_update2_ne _ _ _ _ _ _ _ (hdistinct q hq hne)]
  have hput : w.put_ball (some p)
      = w.set_ball_count (w.ball_at p.avenue p.street + 1) (some p) := by
    unfold World.put_ball
    simp only [Option.getD_some]
    rw [ball_count_eq w p hp]
    rfl
  have htake : w.take_ball (some p)
      = w.set_ball_count (w.ball_at p.avenue p.street - 1) (some p) := by
    unfold World.take_ball
    simp only [Option.getD_some]
    rw [ball_count_eq w p hp]
    rfl
  obtain ⟨h1put, h2put, h3put, h4put⟩ :=
    hupd (w.ball_at p.avenue p.street + 1) (by omega)
  refine ⟨w.ball_at p.avenue p.street, _, ball_count_eq w p hp, hc0,
    by rw [hput]; exact h1put, h2put, h3put, rfl, rfl, rfl, rfl, h4put,
    ?_, ?_⟩
  · intro hcpos
    obtain ⟨h1t, h2t, h3t, h4t⟩ :=
      hupd (w.ball_at p.avenue p.street - 1) (by omega)
    exact ⟨_, by rw [htake]; exact h1t, h2t, h3t, rfl, rfl, rfl, rfl, h4t⟩
  · intro hzero
    rw [htake]
    exact set_ball_count_neg w p _ hp (by omega)

/-- Witness for `c10_put_take_spec` at the single cell of a 1×1 world. -/
theorem c10_put_take_spec_witness :
    ∃ c w₁,
      ex_1x1.ball_count (some ⟨0, 0⟩) = .ok c ∧ 0 ≤ c ∧
      ex_1x1.put_ball (some ⟨0, 0⟩) = .ok w₁ ∧
      w₁.ball_count (some ⟨0, 0⟩) = .ok (c + 1) ∧
      (∀ q, ex_1x1.size.in_bounds q = true → q ≠ ⟨0, 0⟩ →
        w₁.ball_count (some q) = ex_1x1.ball_count (some q)) ∧
      w₁.karel = ex_1x1.karel ∧
      w₁.horizontal_walls = ex_1x1.horizontal_walls ∧
      w₁.vertical_walls = ex_1x1.vertical_walls ∧
      w₁.colors = ex_1x1.colors ∧
      w₁.size = ex_1x1.size ∧
      (0 < c → ∃ w₂, ex_1x1.take_ball (some ⟨0, 0⟩) = .ok w₂ ∧
        w₂.ball_count (some ⟨0, 0⟩) = .ok (c - 1) ∧
        (∀ q, ex_1x1.size.in_bounds q = true → q ≠ ⟨0, 0⟩ →
          w₂.ball_count (some q) = ex_1x1.ball_count (some q)) ∧
        w₂.karel = ex_1x1.karel ∧
        w₂.horizontal_walls = ex_1x1.horizontal_walls ∧
        w₂.vertical_walls = ex_1x1.vertical_walls ∧
        w₂.colors = ex_1x1.colors ∧
        w₂.size = ex_1x1.size) ∧
      (c = 0 → ex_1x1.take_ball (some ⟨0, 0⟩) = .error .valueError) :=
  c10_put_take_spec ex_1x1 ⟨0, 0⟩ (by decide) (by decide)

theorem street_shrink_size_street (w : World) (t : Nat) :
    (w.street_shrink t).size.street = w.size.street - t := by
  simp [World.street_shrink, World.size]

theorem street_resize_cases (w : World) (newS : Nat) :
    (newS < w.size.street →
      w.street_resize newS = w.street_shrink (w.size.street - newS)) ∧
    (newS = w.size.street → w.street_resize newS = w) ∧
    (w.size.street < newS →
      w.street_resize newS = w.street_grow (newS - w.size.street)) := by
  refine ⟨?_, ?_, ?_⟩
  · intro h
    unfold World.street_resize
    rw [if_pos h]
    unfold World.street_resize_aux
    rw [street_shrink_size_street, if_neg (by omega)]
  · intro h
    unfold World.street_resize
    rw [if_neg (by omega)]
    unfold World.street_resize_aux
    rw [if_neg (by omega)]
  · intro h
    unfold World.street_resize
    rw [if_neg (by omega)]
    unfold World.street_resize_aux
    rw [if_pos (by omega)]

theorem headD_map_nil (g : List (List α)) (f : List α → List β)
    (hf : f [] = []) : (g.map f).headD [] = f (g.headD []) := by
  cases g <;> simp [hf]

theorem headD_map_of_ne (g : List (List α)) (f : List α → List β)
    (h : g ≠ []) : (g.map f).headD [] = f (g.headD []) := by
  cases g
  · exact absurd rfl h
  · simp

theorem avenue_shrink_size_avenue (w : World) (t : Nat) :
    (w.avenue_shrink t).size.avenue = w.size.avenue - t := by
  unfold World.avenue_shrink World.size
  show ((w.ball_counts.map (fun r => r.take (r.length - t))).headD []).length
    = (w.ball_counts.headD []).length - t
  rw [headD_map_nil _ _ (by simp)]
  rw [List.length_take]
  omega

theorem avenue_resize_cases (w : World) (newA : Nat) :
    (newA < w.size.avenue →
      w.avenue_resize newA = w.avenue_shrink (w.size.avenue - newA)) ∧
    (newA = w.size.avenue → w.avenue_resize newA = w) ∧
    (w.size.avenue < newA →
      w.avenue_resize newA = w.avenue_grow (newA - w.size.avenue)) := by
  refine ⟨?_, ?_, ?_⟩
  · intro h
    unfold World.avenue_resize
    rw [if_pos h]
    unfold World.avenue_resize_aux
    rw [avenue_shrink_size_avenue, if_neg (by omega)]
  · intro h
    unfold World.avenue_resize
    rw [if_neg (by omega)]
    unfold World.avenue_resize_aux
    rw [if_neg (by omega)]
  · intro h
    unfold World.avenue_resize
    rw [if_neg (by omega)]
    unfold World.avenue_resize_aux
    rw [if_pos (by omega)]

theorem cell_drop (g : List (List α)) (d : α) (t i j : Nat) :
    cell (g.drop t) d i j = cell g d (t + i) j := by
  unfold cell
  rw [getD_drop]

theorem cell_prepend_old (t : Nat) (row : List α) (g : List (List α))
    (d : α) (i j : Nat) :
    cell (List.replicate t row ++ g) d (t + i) j = cell g d i j := by
  unfold cell
  have h := getD_append_right (List.replicate t row) g i ([] : List α)
  rw [List.length_replicate] at h
  rw [h]

theorem cell_prepend_new (t : Nat) (row : List α) (g : List (List α))
    (d : α) (i j : Nat) (h : i < t) :
    cell (List.replicate t row ++ g) d i j = row.getD j d := by
  unfold cell
  rw [getD_append_left _ _ _ _ (by simpa using h), getD_replicate _ _ _ _ h]

theorem cell_map_take (g : List (List α)) (d : α) (t i j : Nat)
    (hi : i < g.length) (hj : j < (g.getD i []).length - t) :
    cell (g.map (fun r => r.take (r.length - t))) d i j = cell g d i j := by
  unfold cell
  rw [getD_map _ _ _ _ [] hi, getD_take _ _ _ _ (by omega)]

theorem cell_map_append_old (g : List (List α)) (d : α) (t : Nat) (x : α)
    (i j : Nat) (hi : i < g.length) (hj : j < (g.getD i []).length) :
    cell (g.map (fun r => r ++ List.replicate t x)) d i j = cell g d i j := by
  unfold cell
  rw [getD_map _ _ _ _ [] hi, getD_append_left _ _ _ _ hj]

theorem cell_map_append_new (g : List (List α)) (d : α) (t : Nat) (x : α)
    (i j : Nat) (hi : i < g.length) (hj1 : (g.getD i []).length ≤ j)
    (hj2 : j < (g.getD i []).length + t) :
    cell (g.map (fun r => r ++ List.replicate t x)) d i j = x := by
  unfold cell
  rw [getD_map _ _ _ _ [] hi]
  have h := getD_append_right (g.getD i []) (List.replicate t x)
    (j - (g.getD i []).length) d
  rw [show (g.getD i []).length + (j - (g.getD i []).length) = j from
    by omega] at h
  rw [h, getD_replicate _ _ _ _ (by omega)]

theorem rect_drop (g : List (List α)) (R C t : Nat) (h : rect g R C)
    (ht : t ≤ R) : rect (g.drop t) (R - t) C :=
  ⟨by simp [h.1], fun r hr => h.2 r (List.mem_of_mem_drop hr)⟩

theorem rect_prepend (g : List (List α)) (R C t : Nat) (row : List α)
    (h : rect g R C) (hrow : row.length = C) :
    rect (List.replicate t row ++ g) (t + R) C := by
  refine ⟨by simp [h.1], fun r hr => ?_⟩
  rcases List.mem_append.mp hr with h1 | h2
  · rw [List.eq_of_mem_replicate h1, hrow]
  · exact h.2 _ h2

theorem rect_map_take (g : List (List α)) (R C t : Nat) (h : rect g R C)
    (ht : t ≤ C) :
    rect (g.map (fun r => r.take (r.length - t))) R (C - t) := by
  refine ⟨by simp [h.1], fun r hr => ?_⟩
  obtain ⟨r0, hr0, rfl⟩ := List.mem_map.mp hr
  rw [List.length_take, h.2 _ hr0]
  omega

theorem rect_map_append (g : List (List α)) (R C t : Nat) (x : α)
    (h : rect g R C) :
    rect (g.map (fun r => r ++ List.replicate t x)) R (C + t) := by
  refine ⟨by simp [h.1], fun r hr => ?_⟩
  obtain ⟨r0, hr0, rfl⟩ := List.mem_map.mp hr
  simp [h.2 _ hr0]

/-- Effect of the street phase of the resize: the sizes and shapes become
`(avenue, newS)`-consistent, cells at streets existing in both sizes are
unchanged, and cells at new (north) streets hold 0 balls, white color, and no
walls. -/
theorem street_resize_spec (w : World) (newS : Nat)
    (hS1 : 1 ≤ w.size.street) (hN1 : 1 ≤ newS)
    (hbc : rect w.ball_counts w.size.street w.size.avenue)
    (hhw : rect w.horizontal_walls (w.size.street - 1) w.size.avenue)
    (hvw : rect w.vertical_walls w.size.street (w.size.avenue - 1))
    (hcl : rect w.colors w.size.street w.size.avenue) :
    (w.street_resize newS).karel = w.karel ∧
    (w.street_resize newS).size = ⟨w.size.avenue, newS⟩ ∧
    rect (w.street_resize newS).ball_counts newS w.size.avenue ∧
    rect (w.street_resize newS).horizontal_walls (newS - 1) w.size.avenue ∧
    rect (w.street_resize newS).vertical_walls newS (w.size.avenue - 1) ∧
    rect (w.street_resize newS).colors newS w.size.avenue ∧
    (∀ a s, a < w.size.avenue → s < newS →
      (w.street_resize newS).ball_at a s
        = if s < w.size.street then w.ball_at a s else 0) ∧
    (∀ a s, a < w.size.avenue → s < newS →
      (w.street_resize newS).color_cell a s
        = if s < w.size.street then w.color_cell a s else white) ∧
    (∀ a s, a < w.size.avenue → s + 1 < newS →
      (w.street_resize newS).hwall_at a s
        = if s + 1 < w.size.street then w.hwall_at a s else false) ∧
    (∀ a s, a + 1 < w.size.avenue → s < newS →
      (w.street_resize newS).vwall_at a s
        = if s < w.size.street then w.vwall_at a s else false) := by
  rcases Nat.lt_trichotomy newS w.size.street with hlt | heq | hgt
  · rw [(street_resize_cases w newS).1 hlt]
    have hstreet : (w.street_shrink (w.size.street - newS)).size.street
        = newS := by
      rw [street_shrink_size_street]
      omega
    have havenue : (w.street_shrink (w.size.street - newS)).size.avenue
        = w.size.avenue := by
      show ((w.ball_counts.drop (w.size.street - newS)).headD []).length = _
      rw [headD_eq_getD, getD_drop]
      exact rect_row_length _ _ _ _ hbc (by omega)
    have hsize : (w.street_shrink (w.size.street - newS)).size
        = ⟨w.size.avenue, newS⟩ := by
      calc (w.street_shrink (w.size.street - newS)).size
          = ⟨(w.street_shrink (w.size.street - newS)).size.avenue,
             (w.street_shrink (w.size.street - newS)).size.street⟩ := rfl
        _ = ⟨w.size.avenue, newS⟩ := by rw [havenue, hstreet]
    refine ⟨rfl, hsize, ?_, ?_, ?_, ?_, ?_, ?_, ?_, ?_⟩
    · have h := rect_drop _ _ _ _ hbc (show w.size.street - newS
        ≤ w.size.street from by omega)
      rwa [show w.size.street - (w.size.street - newS) = newS from
        by omega] at h
    · have h := rect_drop _ _ _ _ hhw (show w.size.street - newS
        ≤ w.size.street - 1 from by omega)
      rwa [show w.size.street - 1 - (w.size.street - newS) = newS - 1 from
        by omega] at h
    · have h := rect_drop _ _ _ _ hvw (show w.size.street - newS
        ≤ w.size.street from by omega)
      rwa [show w.size.street - (w.size.street - newS) = newS from
        by omega] at h
    · have h := rect_drop _ _ _ _ hcl (show w.size.street - newS
        ≤ w.size.street from by omega)
      rwa [show w.size.street - (w.size.street - newS) = newS from
        by omega] at h
    · intro a s ha hs
      rw [if_pos (by omega)]
      unfold World.ball_at
      rw [hstreet]
      show cell (w.ball_counts.drop (w.size.street - newS)) 0
        (newS - 1 - s) a = _
      rw [cell_drop, show w.size.street - newS + (newS - 1 - s)
        = w.size.street - 1 - s from by omega]
    · intro a s ha hs
      rw [if_pos (by omega)]
      unfold World.color_cell
      rw [hstreet]
      show cell (w.colors.drop (w.size.street - newS)) white
        (newS - 1 - s) a = _
      rw [cell_drop, show w.size.street - newS + (newS - 1 - s)
        = w.size.street - 1 - s from by omega]
    · intro a s ha hs
      rw [if_pos (by omega)]
      unfold World.hwall_at
      rw [hstreet]
      show cell (w.horizontal_walls.drop (w.size.street - newS)) false
        (newS - 2 - s) a = _
      rw [cell_drop, show w.size.street - newS + (newS - 2 - s)
        = w.size.street - 2 - s from by omega]
    · intro a s ha hs
      rw [if_pos (by omega)]
      unfold World.vwall_at
      rw [hstreet]
      show cell (w.vertical_walls.drop (w.size.street - newS)) false
        (newS - 1 - s) a = _
      rw [cell_drop, show w.size.street - newS + (newS - 1 - s)
        = w.size.street - 1 - s from by omega]
  · rw [(street_resize_cases w newS).2.1 heq]
    subst heq
    refine ⟨rfl, rfl, hbc, hhw, hvw, hcl, ?_, ?_, ?_, ?_⟩
    · intro a s ha hs
      rw [if_pos (by omega)]
    · intro a s ha hs
      rw [if_pos (by omega)]
    · intro a s ha hs
      rw [if_pos (by omega)]
    · intro a s ha hs
      rw [if_pos (by omega)]
  · rw [(street_resize_cases w newS).2.2 hgt]
    have hstreet : (w.street_grow (newS - w.size.street)).size.street
        = newS := by
      show (List.replicate (newS - w.size.street)
        (List.replicate w.size.avenue 0) ++ w.ball_counts).length = newS
      rw [List.length_append, List.length_replicate]
      have : w.ball_counts.length = w.size.street := rfl
      omega
    have havenue : (w.street_grow (newS - w.size.street)).size.avenue
        = w.size.avenue := by
      show ((List.replicate (newS - w.size.street)
        (List.replicate w.size.avenue 0) ++ w.ball_counts).headD []).length
        = w.size.avenue
      rw [headD_eq_getD,
        getD_append_left _ _ _ _ (by rw [List.length_replicate]; omega),
        getD_replicate _ _ _ _ (by omega), List.length_replicate]
    have hsize : (w.street_grow (newS - w.size.street)).size
        = ⟨w.size.avenue, newS⟩ := by
      calc (w.street_grow (newS - w.size.street)).size
          = ⟨(w.street_grow (newS - w.size.street)).size.avenue,
             (w.street_grow (newS - w.size.street)).size.street⟩ := rfl
        _ = ⟨w.size.avenue, newS⟩ := by rw [havenue, hstreet]
    refine ⟨rfl, hsize, ?_, ?_, ?_, ?_, ?_, ?_, ?_, ?_⟩
    · have h := rect_prepend _ _ _ (newS - w.size.street) _ hbc
        (List.length_replicate w.size.avenue (0 : Int))
      rwa [show newS - w.size.street + w.size.street = newS from
        by omega] at h
    · have h := rect_prepend _ _ _ (newS - w.size.street) _ hhw
        (List.length_replicate w.size.avenue false)
      rwa [show newS - w.size.street + (w.size.street - 1) = newS - 1 from
        by omega] at h
    · have h := rect_prepend _ _ _ (newS - w.size.street) _ hvw
        (List.length_replicate (w.size.avenue - 1) false)
      rwa [show newS - w.size.street + w.size.street = newS from
        by omega] at h
    · have h := rect_prepend _ _ _ (newS - w.size.street) _ hcl
        (List.length_replicate w.size.avenue white)
      rwa [show newS - w.size.street + w.size.street = newS from
        by omega] at h
    · intro a s ha hs
      unfold World.ball_at
      rw [hstreet]
      show cell (List.replicate (newS - w.size.street)
        (List.replicate w.size.avenue 0) ++ w.ball_counts) 0
        (newS - 1 - s) a = _
      by_cases hcase : s < w.size.street
      · rw [if_pos hcase]
        rw [show newS - 1 - s = (newS - w.size.street)
          + (w.size.street - 1 - s) from by omega]
        rw [cell_prepend_old]
      · rw [if_neg hcase]
        rw [cell_prepend_new _ _ _ _ _ _ (by omega),
          getD_replicate _ _ _ _ (by omega)]
    · intro a s ha hs
      unfold World.color_cell
      rw [hstreet]
      show cell (List.replicate (newS - w.size.street)
        (List.replicate w.size.avenue white) ++ w.colors) white
        (newS - 1 - s) a = _
      by_cases hcase : s < w.size.street
      · rw [if_pos hcase]
        rw [show newS - 1 - s = (newS - w.size.street)
          + (w.size.street - 1 - s) from by omega]
        rw [cell_prepend_old]
      · rw [if_neg hcase]
        rw [cell_prepend_new _ _ _ _ _ _ (by omega),
          getD_replicate _ _ _ _ (by omega)]
    · intro a s ha hs
      unfold World.hwall_at
      rw [hstreet]
      show cell (List.replicate (newS - w.size.street)
        (List.replicate w.size.avenue false) ++ w.horizontal_walls) false
        (newS - 2 - s) a = _
      by_cases hcase : s + 1 < w.size.street
      · rw [if_pos hcase]
        rw [show newS - 2 - s = (newS - w.size.street)
          + (w.size.street - 2 - s) from by omega]
        rw [cell_prepend_old]
      · rw [if_neg hcase]
        rw [cell_prepend_new _ _ _ _ _ _ (by omega),
          getD_replicate _ _ _ _ (by omega)]
    · intro a s ha hs
      unfold World.vwall_at
      rw [hstreet]
      show cell (List.replicate (newS - w.size.street)
        (List.replicate (w.size.avenue - 1) false) ++ w.vertical_walls) false
        (newS - 1 - s) a = _
      by_cases hcase : s < w.size.street
      · rw [if_pos hcase]
        rw [show newS - 1 - s = (newS - w.size.street)
          + (w.size.street - 1 - s) from by omega]
        rw [cell_prepend_old]
      · rw [if_neg hcase]
        rw [cell_prepend_new _ _ _ _ _ _ (by omega),
          getD_replicate _ _ _ _ (by omega)]

/-- Effect of the avenue phase of the resize: the sizes and shapes become
`(newA, street)`-consistent, cells at avenues existing in both sizes are
unchanged, and cells at new (east) avenues hold 0 balls, white color, and no
walls. -/
theorem avenue_resize_spec (w : World) (newA : Nat)
    (hA1 : 1 ≤ w.size.avenue) (hN1 : 1 ≤ newA) (hS1 : 1 ≤ w.size.street)
    (hbc : rect w.ball_counts w.size.street w.size.avenue)
    (hhw : rect w.horizontal_walls (w.size.street - 1) w.size.avenue)
    (hvw : rect w.vertical_walls w.size.street (w.size.avenue - 1))
    (hcl : rect w.colors w.size.street w.size.avenue) :
    (w.avenue_resize newA).karel = w.karel ∧
    (w.avenue_resize newA).size = ⟨newA, w.size.street⟩ ∧
    rect (w.avenue_resize newA).ball_counts w.size.street newA ∧
    rect (w.avenue_resize newA).horizontal_walls (w.size.street - 1) newA ∧
    rect (w.avenue_resize newA).vertical_walls w.size.street (newA - 1) ∧
    rect (w.avenue_resize newA).colors w.size.street newA ∧
    (∀ a s, a < newA → s < w.size.street →
      (w.avenue_resize newA).ball_at a s
        = if a < w.size.avenue then w.ball_at a s else 0) ∧
    (∀ a s, a < newA → s < w.size.street →
      (w.avenue_resize newA).color_cell a s
        = if a < w.size.avenue then w.color_cell a s else white) ∧
    (∀ a s, a < newA → s + 1 < w.size.street →
      (w.avenue_resize newA).hwall_at a s
        = if a < w.size.avenue then w.hwall_at a s else false) ∧
    (∀ a s, a + 1 < newA → s < w.size.street →
      (w.avenue_resize newA).vwall_at a s
        = if a + 1 < w.size.avenue then w.vwall_at a s else false) := by
  have hbcl : w.ball_counts.length = w.size.street := rfl
  have hhwl : w.horizontal_walls.length = w.size.street - 1 := hhw.1
  have hvwl : w.vertical_walls.length = w.size.street := hvw.1
  have hcll : w.colors.length = w.size.street := hcl.1
  rcases Nat.lt_trichotomy newA w.size.avenue with hlt | heq | hgt
  · rw [(avenue_resize_cases w newA).1 hlt]
    have hstreet : (w.avenue_shrink (w.size.avenue - newA)).size.street
        = w.size.street := by
      show (w.ball_counts.map _).length = w.size.street
      rw [List.length_map, hbcl]
    have havenue : (w.avenue_shrink (w.size.avenue - newA)).size.avenue
        = newA := by
      rw [avenue_shrink_size_avenue]
      omega
    have hsize : (w.avenue_shrink (w.size.avenue - newA)).size
        = ⟨newA, w.size.street⟩ := by
      calc (w.avenue_shrink (w.size.avenue - newA)).size
          = ⟨(w.avenue_shrink (w.size.avenue - newA)).size.avenue,
             (w.avenue_shrink (w.size.avenue - newA)).size.street⟩ := rfl
        _ = ⟨newA, w.size.street⟩ := by rw [havenue, hstreet]
    refine ⟨rfl, hsize, ?_, ?_, ?_, ?_, ?_, ?_, ?_, ?_⟩
    · have h := rect_map_take _ _ _ (w.size.avenue - newA) hbc (by omega)
      rwa [show w.size.avenue - (w.size.avenue - newA) = newA from
        by omega] at h
    · have h := rect_map_take _ _ _ (w.size.avenue - newA) hhw (by omega)
      rwa [show w.size.avenue - (w.size.avenue - newA) = newA from
        by omega] at h
    · have h := rect_map_take _ _ _ (w.size.avenue - newA) hvw (by omega)
      rwa [show w.size.avenue - 1 - (w.size.avenue - newA) = newA - 1 from
        by omega] at h
    · have h := rect_map_take _ _ _ (w.size.avenue - newA) hcl (by omega)
      rwa [show w.size.avenue - (w.size.avenue - newA) = newA from
        by omega] at h
    · intro a s ha hs
      rw [if_pos (by omega)]
      unfold World.ball_at
      rw [hstreet]
      show cell (w.ball_counts.map _) 0 (w.size.street - 1 - s) a = _
      rw [cell_map_take _ _ _ _ _ (by omega)
        (by rw [rect_row_length _ _ _ _ hbc (by omega)]; omega)]
    · intro a s ha hs
      rw [if_pos (by omega)]
      unfold World.color_cell
      rw [hstreet]
      show cell (w.colors.map _) white (w.size.street - 1 - s) a = _
      rw [cell_map_take _ _ _ _ _ (by omega)
        (by rw [rect_row_length _ _ _ _ hcl (by omega)]; omega)]
    · intro a s ha hs
      rw [if_pos (by omega)]
      unfold World.hwall_at
      rw [hstreet]
      show cell (w.horizontal_walls.map _) false (w.size.street - 2 - s) a = _
      rw [cell_map_take _ _ _ _ _ (by omega)
        (by rw [rect_row_length _ _ _ _ hhw (by omega)]; omega)]
    · intro a s ha hs
      rw [if_pos (by omega)]
      unfold World.vwall_at
      rw [hstreet]
      show cell (w.vertical_walls.map _) false (w.size.street - 1 - s) a = _
      rw [cell_map_take _ _ _ _ _ (by omega)
        (by rw [rect_row_length _ _ _ _ hvw (by omega)]; omega)]
  · rw [(avenue_resize_cases w newA).2.1 heq]
    subst heq
    refine ⟨rfl, rfl, hbc, hhw, hvw, hcl, ?_, ?_, ?_, ?_⟩
    · intro a s ha hs
      rw [if_pos (by omega)]
    · intro a s ha hs
      rw [if_pos (by omega)]
    · intro a s ha hs
      rw [if_pos (by omega)]
    · intro a s ha hs
      rw [if_pos (by omega)]
  · rw [(avenue_resize_cases w newA).2.2 hgt]
    have hne : w.ball_counts ≠ [] := by
      intro hnil
      rw [hnil] at hbcl
      simp at hbcl
      omega
    have hstreet : (w.avenue_grow (newA - w.size.avenue)).size.street
        = w.size.street := by
      show (w.ball_counts.map _).length = w.size.street
      rw [List.length_map, hbcl]
    have havenue : (w.avenue_grow (newA - w.size.avenue)).size.avenue
        = newA := by
      show ((w.ball_counts.map
        (fun r => r ++ List.replicate (newA - w.size.avenue) 0)).headD
          []).length = newA
      rw [headD_map_of_ne _ _ hne, List.length_append, List.length_replicate]
      have : (w.ball_counts.headD []).length = w.size.avenue := rfl
      omega
    have hsize : (w.avenue_grow (newA - w.size.avenue)).size
        = ⟨newA, w.size.street⟩ := by
      calc (w.avenue_grow (newA - w.size.avenue)).size
          = ⟨(w.avenue_grow (newA - w.size.avenue)).size.avenue,
             (w.avenue_grow (newA - w.size.avenue)).size.street⟩ := rfl
        _ = ⟨newA, w.size.street⟩ := by rw [havenue, hstreet]
    refine ⟨rfl, hsize, ?_, ?_, ?_, ?_, ?_, ?_, ?_, ?_⟩
    · have h := rect_map_append _ _ _ (newA - w.size.avenue) (0 : Int) hbc
      rwa [show w.size.avenue + (newA - w.size.avenue) = newA from
        by omega] at h
    · have h := rect_map_append _ _ _ (newA - w.size.avenue) false hhw
      rwa [show w.size.avenue + (newA - w.size.avenue) = newA from
        by omega] at h
    · have h := rect_map_append _ _ _ (newA - w.size.avenue) false hvw
      rwa [show w.size.avenue - 1 + (newA - w.size.avenue) = newA - 1 from
        by omega] at h
    · have h := rect_map_append _ _ _ (newA - w.size.avenue) white hcl
      rwa [show w.size.avenue + (newA - w.size.avenue) = newA from
        by omega] at h
    · intro a s ha hs
      unfold World.ball_at
      rw [hstreet]
      show cell (w.ball_counts.map _) 0 (w.size.street - 1 - s) a = _
      have hrow : (w.ball_counts.getD (w.size.street - 1 - s) []).length
          = w.size.avenue := rect_row_length _ _ _ _ hbc (by omega)
      by_cases hcase : a < w.size.avenue
      · rw [if_pos hcase]
        rw [cell_map_append_old _ _ _ _ _ _ (by omega) (by omega)]
      · rw [if_neg hcase]
        rw [cell_map_append_new _ _ _ _ _ _ (by omega) (by omega) (by omega)]
    · intro a s ha hs
      unfold World.color_cell
      rw [hstreet]
      show cell (w.colors.map _) white (w.size.street - 1 - s) a = _
      have hrow : (w.colors.getD (w.size.street - 1 - s) []).length
          = w.size.avenue := rect_row_length _ _ _ _ hcl (by omega)
      by_cases hcase : a < w.size.avenue
      · rw [if_pos hcase]
        rw [cell_map_append_old _ _ _ _ _ _ (by omega) (by omega)]
      · rw [if_neg hcase]
        rw [cell_map_append_new _ _ _ _ _ _ (by omega) (by omega) (by omega)]
    · intro a s ha hs
      unfold World.hwall_at
      rw [hstreet]
      show cell (w.horizontal_walls.map _) false (w.size.street - 2 - s) a = _
      have hrow : (w.horizontal_walls.getD (w.size.street - 2 - s) []).length
          = w.size.avenue := rect_row_length _ _ _ _ hhw (by omega)
      by_cases hcase : a < w.size.avenue
      · rw [if_pos hcase]
        rw [cell_map_append_old _ _ _ _ _ _ (by omega) (by omega)]
      · rw [if_neg hcase]
        rw [cell_map_append_new _ _ _ _ _ _ (by omega) (by omega) (by omega)]
    · intro a s ha hs
      unfold World.vwall_at
      rw [hstreet]
      show cell (w.vertical_walls.map _) false (w.size.street - 1 - s) a = _
      have hrow : (w.vertical_walls.getD (w.size.street - 1 - s) []).length
          = w.size.avenue - 1 := rect_row_length _ _ _ _ hvw (by omega)
      by_cases hcase : a + 1 < w.size.avenue
      · rw [if_pos hcase]
        rw [cell_map_append_old _ _ _ _ _ _ (by omega) (by omega)]
      · rw [if_neg hcase]
        rw [cell_map_append_new _ _ _ _ _ _ (by omega) (by omega) (by omega)]

/-- Composed effect of the `size` setter for a valid new size: it succeeds,
preserves well-formedness, the robot, and the south-west-anchored common
sub-grid of cells and walls, and fills new cells with 0 balls, white color and
no walls. -/
theorem set_size_spec (w : World) (new : AvenueAndStreet) (hwf : w.WF)
    (hA : 1 ≤ new.avenue) (hS : 1 ≤ new.street)
    (hr : new.in_bounds w.karel.position = true) :
    ∃ w', w.set_size new = .ok w' ∧ w'.WF ∧ w'.size = new ∧
      w'.karel = w.karel ∧
      (∀ a s, a < new.avenue → s < new.street →
        w'.ball_at a s = if a < w.size.avenue ∧ s < w.size.street
          then w.ball_at a s else 0) ∧
      (∀ a s, a < new.avenue → s < new.street →
        w'.color_cell a s = if a < w.size.avenue ∧ s < w.size.street
          then w.color_cell a s else white) ∧
      (∀ a s, a < new.avenue → s + 1 < new.street →
        w'.hwall_at a s = if a < w.size.avenue ∧ s + 1 < w.size.street
          then w.hwall_at a s else false) ∧
      (∀ a s, a + 1 < new.avenue → s < new.street →
        w'.vwall_at a s = if a + 1 < w.size.avenue ∧ s < w.size.street
          then w.vwall_at a s else false) := by
  obtain ⟨hA0, hS0, hbc, hhw, hvw, hcl, hnn, hkin⟩ := hwf
  obtain ⟨hk1, hsz1, hbc1, hhw1, hvw1, hcl1, hball1, hcol1, hhwc1, hvwc1⟩ :=
    street_resize_spec w new.street hS0 hS hbc hhw hvw hcl
  have hsA1 : (w.street_resize new.street).size.avenue = w.size.avenue := by
    rw [hsz1]
  have hsS1 : (w.street_resize new.street).size.street = new.street := by
    rw [hsz1]
  obtain ⟨hk2, hsz2, hbc2, hhw2, hvw2, hcl2, hball2, hcol2, hhwc2, hvwc2⟩ :=
    avenue_resize_spec (w.street_resize new.street) new.avenue
      (by rw [hsA1]; exact hA0) hA (by rw [hsS1]; exact hS)
      (by rw [hsS1, hsA1]; exact hbc1) (by rw [hsS1, hsA1]; exact hhw1)
      (by rw [hsS1, hsA1]; exact hvw1) (by rw [hsS1, hsA1]; exact hcl1)
  rw [hsA1] at hball2 hcol2 hhwc2 hvwc2
  rw [hsS1] at hbc2 hhw2 hvw2 hcl2 hball2 hcol2 hhwc2 hvwc2 hsz2
  have hkeq : ((w.street_resize new.street).avenue_resize new.avenue).karel
      = w.karel := by rw [hk2, hk1]
  have hszeq : ((w.street_resize new.street).avenue_resize new.avenue).size
      = new := by
    rw [hsz2]
  have hballc : ∀ a s, a < new.avenue → s < new.street →
      ((w.street_resize new.street).avenue_resize new.avenue).ball_at a s
        = if a < w.size.avenue ∧ s < w.size.street
          then w.ball_at a s else 0 := by
    intro a s ha hs
    rw [hball2 a s ha hs]
    by_cases hca : a < w.size.avenue
    · rw [if_pos hca, hball1 a s hca hs]
      by_cases hcs : s < w.size.street
      · rw [if_pos hcs, if_pos ⟨hca, hcs⟩]
      · rw [if_neg hcs, if_neg (by tauto)]
    · rw [if_neg hca, if_neg (by tauto)]
  have hcolc : ∀ a s, a < new.avenue → s < new.street →
      ((w.street_resize new.street).avenue_resize new.avenue).color_cell a s
        = if a < w.size.avenue ∧ s < w.size.street
          then w.color_cell a s else white := by
    intro a s ha hs
    rw [hcol2 a s ha hs]
    by_cases hca : a < w.size.avenue
    · rw [if_pos hca, hcol1 a s hca hs]
      by_cases hcs : s < w.size.street
      · rw [if_pos hcs, if_pos ⟨hca, hcs⟩]
      · rw [if_neg hcs, if_neg (by tauto)]
    · rw [if_neg hca, if_neg (by tauto)]
  have hhwc : ∀ a s, a < new.avenue → s + 1 < new.street →
      ((w.street_resize new.street).avenue_resize new.avenue).hwall_at a s
        = if a < w.size.avenue ∧ s + 1 < w.size.street
          then w.hwall_at a s else false := by
    intro a s ha hs
    rw [hhwc2 a s ha hs]
    by_cases hca : a < w.size.avenue
    · rw [if_pos hca, hhwc1 a s hca hs]
      by_cases hcs : s + 1 < w.size.street
      · rw [if_pos hcs, if_pos ⟨hca, hcs⟩]
      · rw [if_neg hcs, if_neg (by tauto)]
    · rw [if_neg hca, if_neg (by tauto)]
  have hvwc : ∀ a s, a + 1 < new.avenue → s < new.street →
      ((w.street_resize new.street).avenue_resize new.avenue).vwall_at a s
        = if a + 1 < w.size.avenue ∧ s < w.size.street
          then w.vwall_at a s else false := by
    intro a s ha hs
    rw [hvwc2 a s ha hs]
    by_cases hca : a + 1 < w.size.avenue
    · rw [if_pos hca, hvwc1 a s hca hs]
      by_cases hcs : s < w.size.street
      · rw [if_pos hcs, if_pos ⟨hca, hcs⟩]
      · rw [if_neg hcs, if_neg (by tauto)]
    · rw [if_neg hca, if_neg (by tauto)]
  refine ⟨(w.street_resize new.street).avenue_resize new.avenue, ?_, ?_,
    hszeq, hkeq, hballc, hcolc, hhwc, hvwc⟩
  · unfold World.set_size
    rw [if_neg (by omega), if_neg (by simp [hr])]
  · refine ⟨by rw [hszeq]; exact hA, by rw [hszeq]; exact hS,
      by rw [hszeq]; exact hbc2, by rw [hszeq]; exact hhw2,
      by rw [hszeq]; exact hvw2, by rw [hszeq]; exact hcl2, ?_,
      by rw [hszeq, hkeq]; exact hr⟩
    intro r hr0 x hx
    obtain ⟨i, hi, rfl⟩ := List.mem_iff_get.mp hr0
    obtain ⟨j, hj, rfl⟩ := List.mem_iff_get.mp hx
    have hlen : ((w.street_resize new.street).avenue_resize
        new.avenue).ball_counts.length = new.street := hbc2.1
    have hrl : (((w.street_resize new.street).avenue_resize
        new.avenue).ball_counts.get i).length = new.avenue :=
      hbc2.2 _ (List.get_mem _ _ _)
    have hiv : (i : Nat) < new.street := by
      have := i.isLt
      omega
    have hjv : (j : Nat) < new.avenue := by
      have := j.isLt
      omega
    have hcellx : ((w.street_resize new.street).avenue_resize
        new.avenue).ball_at (j : Nat) (new.street - 1 - (i : Nat))
        = (((w.street_resize new.street).avenue_resize
          new.avenue).ball_counts.get i).get j := by
      unfold World.ball_at
      rw [hszeq]
      show cell ((w.street_resize new.street).avenue_resize
        new.avenue).ball_counts 0
        (new.street - 1 - (new.street - 1 - (i : Nat))) (j : Nat) = _
      rw [show new.street - 1 - (new.street - 1 - (i : Nat)) = (i : Nat) from
        by omega]
      unfold cell
      rw [getD_of_lt _ _ _ i.isLt, getD_of_lt _ _ _ j.isLt]
    rw [← hcellx, hballc _ _ hjv (by omega)]
    by_cases hcase : (j : Nat) < w.size.avenue
      ∧ new.street - 1 - (i : Nat) < w.size.street
    · rw [if_pos hcase]
      exact wf_ball_nonneg w ⟨hA0, hS0, hbc, hhw, hvw, hcl, hnn, hkin⟩ _ _
        hcase.1 hcase.2
    · rw [if_neg hcase]

theorem set_size_noop (w : World) (hwf : w.WF) : w.set_size w.size = .ok w := by
  have h1 := hwf.1
  have h2 := hwf.2.1
  unfold World.set_size
  rw [if_neg (by omega), if_neg (by simp [hwf.2.2.2.2.2.2.2])]
  rw [(street_resize_cases w w.size.street).2.1 rfl,
    (avenue_resize_cases w w.size.avenue).2.1 rfl]

/-- Claim C6 (amended): resizing a well-formed world to any valid new size
succeeds and preserves the south-west-anchored common sub-grid — the robot is
untouched, ball-count and color queries at positions valid in both sizes are
unchanged, positions valid only in the new size read 0 balls and white, wall
queries at edges interior to both sizes are unchanged, and edges interior to
the new size that were boundary (or entirely outside) in the old size report
no wall, consistent with the newly added cells being empty; resizing to the
current size is a no-op. -/
theorem c6_resize_preserves_subgrid (w : World) (new : AvenueAndStreet)
    (hwf : w.WF) (hA : 1 ≤ new.avenue) (hS : 1 ≤ new.street)
    (hr : new.in_bounds w.karel.position = true) :
    w.set_size w.size = .ok w ∧
    ∃ w', w.set_size new = .ok w' ∧ w'.size = new ∧ w'.karel = w.karel ∧
      (∀ p : AvenueAndStreet, w.size.in_bounds p = true →
        new.in_bounds p = true →
        w'.ball_count (some p) = w.ball_count (some p) ∧
        w'.color_at (some p) = w.color_at (some p)) ∧
      (∀ p : AvenueAndStreet, new.in_bounds p = true →
        w.size.in_bounds p = false →
        w'.ball_count (some p) = .ok 0 ∧ w'.color_at (some p) = .ok white) ∧
      (∀ p d, w.size.in_bounds p = true → new.in_bounds p = true →
        ¬ outward w.size p d → ¬ outward new p d →
        w'.is_blocked (some p) (some d) = w.is_blocked (some p) (some d)) ∧
      (∀ p d, new.in_bounds p = true → ¬ outward new p d →
        (w.size.in_bounds p = false ∨ outward w.size p d) →
        w'.is_blocked (some p) (some d) = .ok false) := by
  obtain ⟨w', heq, hwf', hsz', hk', hball, hcol, hhw, hvw⟩ :=
    set_size_spec w new hwf hA hS hr
  refine ⟨set_size_noop w hwf, w', heq, hsz', hk', ?_, ?_, ?_, ?_⟩
  · intro p hp hpn
    have hpb := hp
    rw [in_bounds_iff] at hpb
    have hpnb := hpn
    rw [in_bounds_iff] at hpnb
    have hp' : w'.size.in_bounds p = true := by rw [hsz']; exact hpn
    constructor
    · rw [ball_count_eq w' p hp', ball_count_eq w p hp,
        hball _ _ hpnb.1 hpnb.2, if_pos ⟨hpb.1, hpb.2⟩]
    · rw [color_at_eq w' p hp', color_at_eq w p hp,
        hcol _ _ hpnb.1 hpnb.2, if_pos ⟨hpb.1, hpb.2⟩]
  · intro p hpn hpold
    have hpnb := hpn
    rw [in_bounds_iff] at hpnb
    have hpo : ¬ (p.avenue < w.size.avenue ∧ p.street < w.size.street) := by
      rw [← in_bounds_iff, hpold]
      simp
    have hp' : w'.size.in_bounds p = true := by rw [hsz']; exact hpn
    constructor
    · rw [ball_count_eq w' p hp', hball _ _ hpnb.1 hpnb.2, if_neg hpo]
    · rw [color_at_eq w' p hp', hcol _ _ hpnb.1 hpnb.2, if_neg hpo]
  · intro p d hp hpn hod hnd
    have hpb := hp
    rw [in_bounds_iff] at hpb
    have hpnb := hpn
    rw [in_bounds_iff] at hpnb
    have hp' : w'.size.in_bounds p = true := by rw [hsz']; exact hpn
    rw [is_blocked_eq w' p d hp', is_blocked_eq w p d hp,
      is_blocked_at_eq w' p d hp', is_blocked_at_eq w p d hp]
    cases d <;> simp only [outward] at hod hnd
    · show Except.ok (if p.street + 1 < w'.size.street then
        w'.hwall_at p.avenue p.street else true)
        = Except.ok (if p.street + 1 < w.size.street then
          w.hwall_at p.avenue p.street else true)
      rw [hsz']
      rw [if_pos (by omega), if_pos (by omega),
        hhw _ _ hpnb.1 (by omega), if_pos ⟨hpb.1, by omega⟩]
    · show Except.ok (if 0 < p.street then
        w'.hwall_at p.avenue (p.street - 1) else true)
        = Except.ok (if 0 < p.street then
          w.hwall_at p.avenue (p.street - 1) else true)
      rw [if_pos (by omega), if_pos (by omega),
        hhw _ _ hpnb.1 (by omega), if_pos ⟨hpb.1, by omega⟩]
    · show Except.ok (if p.avenue + 1 < w'.size.avenue then
        w'.vwall_at p.avenue p.street else true)
        = Except.ok (if p.avenue + 1 < w.size.avenue then
          w.vwall_at p.avenue p.street else true)
      rw [hsz']
      rw [if_pos (by omega), if_pos (by omega),
        hvw _ _ (by omega) hpnb.2, if_pos ⟨by omega, hpb.2⟩]
    · show Except.ok (if 0 < p.avenue then
        w'.vwall_at (p.avenue - 1) p.street else true)
        = Except.ok (if 0 < p.avenue then
          w.vwall_at (p.avenue - 1) p.street else true)
      rw [if_pos (by omega), if_pos (by omega),
        hvw _ _ (by omega) hpnb.2, if_pos ⟨by omega, hpb.2⟩]
  · intro p d hpn hnd hold
    have hpnb := hpn
    rw [in_bounds_iff] at hpnb
    have holdb : ¬ (p.avenue < w.size.avenue ∧ p.street < w.size.street)
        ∨ outward w.size p d := by
      rcases hold with h | h
      · exact Or.inl (by rw [← in_bounds_iff, h]; simp)
      · exact Or.inr h
    have hp' : w'.size.in_bounds p = true := by rw [hsz']; exact hpn
    rw [is_blocked_eq w' p d hp', is_blocked_at_eq w' p d hp']
    cases d <;> simp only [outward] at hnd holdb
    · show Except.ok (if p.street + 1 < w'.size.street then
        w'.hwall_at p.avenue p.street else true) = _
      rw [hsz']
      rw [if_pos (by omega), hhw _ _ hpnb.1 (by omega),
        if_neg (by omega)]
    · show Except.ok (if 0 < p.street then
        w'.hwall_at p.avenue (p.street - 1) else true) = _
      rw [if_pos (by omega), hhw _ _ hpnb.1 (by omega),
        if_neg (by omega)]
    · show Except.ok (if p.avenue + 1 < w'.size.avenue then
        w'.vwall_at p.avenue p.street else true) = _
      rw [hsz']
      rw [if_pos (by omega), hvw _ _ (by omega) hpnb.2,
        if_neg (by omega)]
    · show Except.ok (if 0 < p.avenue then
        w'.vwall_at (p.avenue - 1) p.street else true) = _
      rw [if_pos (by omega), hvw _ _ (by omega) hpnb.2,
        if_neg (by omega)]

/-- Claim C6 (counterexample): growing a 1×1 world to 1×2 changes a wall-state
query at a position valid in both sizes — `is_blocked((0,0), north)` is `True`
before the resize (grid boundary) and `False` after (the new interior edge has
no wall) — so not every cell query at a common position returns the same value
as before resizing. -/
theorem c6_wall_query_changes :
    ex_1x1.WF ∧
    ex_1x1.size.in_bounds ⟨0, 0⟩ = true ∧
    (⟨1, 2⟩ : AvenueAndStreet).in_bounds ⟨0, 0⟩ = true ∧
    ex_1x1.is_blocked (some ⟨0, 0⟩) (some .north) = .ok true ∧
    (ex_1x1.set_size ⟨1, 2⟩).bind
      (fun w => w.is_blocked (some ⟨0, 0⟩) (some .north)) = .ok false := by
  refine ⟨by decide, by decide, by decide, by decide, by decide⟩

/-- Witness for `c6_resize_preserves_subgrid`: the 2×1 world grown to 3×2. -/
theorem c6_resize_preserves_subgrid_witness :
    ex_2x1.set_size ex_2x1.size = .ok ex_2x1 ∧
    ∃ w', ex_2x1.set_size ⟨3, 2⟩ = .ok w' ∧ w'.size = ⟨3, 2⟩ ∧
      w'.karel = ex_2x1.karel ∧
      (∀ p : AvenueAndStreet, ex_2x1.size.in_bounds p = true →
        (⟨3, 2⟩ : AvenueAndStreet).in_bounds p = true →
        w'.ball_count (some p) = ex_2x1.ball_count (some p) ∧
        w'.color_at (some p) = ex_2x1.color_at (some p)) ∧
      (∀ p : AvenueAndStreet, (⟨3, 2⟩ : AvenueAndStreet).in_bounds p = true →
        ex_2x1.size.in_bounds p = false →
        w'.ball_count (some p) = .ok 0 ∧ w'.color_at (some p) = .ok white) ∧
      (∀ p d, ex_2x1.size.in_bounds p = true →
        (⟨3, 2⟩ : AvenueAndStreet).in_bounds p = true →
        ¬ outward ex_2x1.size p d → ¬ outward ⟨3, 2⟩ p d →
        w'.is_blocked (some p) (some d)
          = ex_2x1.is_blocked (some p) (some d)) ∧
      (∀ p d, (⟨3, 2⟩ : AvenueAndStreet).in_bounds p = true →
        ¬ outward ⟨3, 2⟩ p d →
        (ex_2x1.size.in_bounds p = false ∨ outward ex_2x1.size p d) →
        w'.is_blocked (some p) (some d) = .ok false) :=
  c6_resize_preserves_subgrid ex_2x1 ⟨3, 2⟩ (by decide) (by decide)
    (by decide) (by decide)
